import Mathlib

/-!
Verification of the Transit_AGENT repository core: the bilingual
location-extraction and fuzzy-geocoding pipeline (geocoding_full.py,
transit_agent_final.py) and the itinerary-normalization layer
(otp_client.py), shallowly embedded in Lean 4.

Strings are modelled as lists of Unicode code points (`Str := List Nat`),
so that Python's character-level operations (`str.lower`, `str.strip`,
substring containment `in`, `str.split`, `str.replace`) can be mirrored
directly.  Python floats are modelled as exact rationals; the only float
operations the code performs are division by constants, summation,
comparison with constants and `round`, all of which are exact at every
value any claim touches.
-/

set_option maxRecDepth 100000

/-- Strings as lists of Unicode code points, mirroring Python `str`. -/
abbrev Str : Type := List Nat

/-- Converts a Lean string literal to the code-point model. -/
def str (s : String) : Str := s.data.map Char.toNat

/-- Python `str.lower` restricted to the alphabet this program uses
(ASCII plus the Arabic block, which has no case distinction). -/
def lowerChar (c : Nat) : Nat := if 65 ≤ c ∧ c ≤ 90 then c + 32 else c

/-- Python `str.lower` on the modelled alphabet. -/
def strLower (s : Str) : Str := s.map lowerChar

/-- Whitespace characters recognised by Python `str.strip`/`str.split` and
by the regex class `\s` for the ASCII range used by the program. -/
def isWs (c : Nat) : Bool := c == 32 || c == 9 || c == 10 || c == 13 || c == 11 || c == 12

/-- Python `str.strip()`: remove leading and trailing whitespace. -/
def strip (s : Str) : Str :=
  ((s.dropWhile isWs).reverse.dropWhile isWs).reverse

/-- Python substring containment `needle in hay` (the empty needle is
contained in everything, as in Python). -/
def strContains (hay needle : Str) : Bool :=
  match hay with
  | [] => needle.isEmpty
  | _ :: t => needle.isPrefixOf hay || strContains t needle

/-- Accumulator worker for `splitWs`: `acc` holds the current word
reversed. -/
def splitWsAux : Str → Str → List Str
  | [], acc => if acc.isEmpty then [] else [acc.reverse]
  | c :: rest, acc =>
    if isWs c then
      if acc.isEmpty then splitWsAux rest [] else acc.reverse :: splitWsAux rest []
    else splitWsAux rest (c :: acc)

/-- Python `str.split()` with no argument: split on whitespace runs,
dropping empty fields. -/
def splitWs (s : Str) : List Str := splitWsAux s []

/-- Python 3 `round` with no digits argument: round half to even
(banker's rounding), returning an integer. -/
def pyRound (q : ℚ) : ℤ :=
  let f := ⌊q⌋
  let r := q - (f : ℚ)
  if r < 1/2 then f
  else if (1:ℚ)/2 < r then f + 1
  else if f % 2 = 0 then f else f + 1

/-- Python 3 `round(x, 2)`: round to 2 decimal places, half to even. -/
def pyRound2 (q : ℚ) : ℚ := (pyRound (q * 100) : ℚ) / 100

/-- First-some-wins choice on options, used to state Python dict lookup
facts. -/
def optOr {α : Type} : Option α → Option α → Option α
  | some v, _ => some v
  | none, b => b

-- ### Basic lemmas about the string primitives

theorem lowerChar_idem (c : Nat) : lowerChar (lowerChar c) = lowerChar c := by
  simp only [lowerChar]
  split_ifs <;> omega

theorem strLower_idem (s : Str) : strLower (strLower s) = strLower s := by
  simp only [strLower, List.map_map]
  apply List.map_congr_left
  intro c _
  exact lowerChar_idem c

theorem strLower_ne_nil {s : Str} (h : s ≠ []) : strLower s ≠ [] := by
  simpa [strLower] using h

/-- Fueled worker for `replaceAll`; with nonempty needle every step
consumes at least one character of `s`, so fuel `s.length` always
suffices. -/
def replaceGo : Nat → Str → Str → Str → Str
  | _, [], _, _ => []
  | 0, s, _, _ => s
  | fuel+1, c :: rest, needle, repl =>
    if needle = [] then c :: rest
    else if needle.isPrefixOf (c :: rest) then
      repl ++ replaceGo fuel (List.drop needle.length (c :: rest)) needle repl
    else c :: replaceGo fuel rest needle repl

/-- Python `s.replace(needle, repl)` for a nonempty needle: replace
non-overlapping occurrences left to right, never rescanning inserted
text.  (All table entries this program uses have nonempty needles; the
empty-needle case, which Python treats specially, is modelled as the
identity.) -/
def replaceAll (s needle repl : Str) : Str := replaceGo s.length s needle repl

theorem replaceGo_of_not_contains (fuel : Nat) (s needle repl : Str)
    (h : strContains s needle = false) : replaceGo fuel s needle repl = s := by
  induction fuel generalizing s with
  | zero => cases s <;> rfl
  | succ n ih =>
    cases s with
    | nil => rfl
    | cons c rest =>
      rw [strContains] at h
      simp only [Bool.or_eq_false_iff] at h
      have hne : needle ≠ [] := by
        intro he
        subst he
        simp [List.isPrefixOf] at h
      rw [replaceGo]
      rw [if_neg hne, if_neg (by simp [h.1]), ih rest h.2]

theorem replaceAll_of_not_contains (s needle repl : Str)
    (h : strContains s needle = false) : replaceAll s needle repl = s :=
  replaceGo_of_not_contains s.length s needle repl h

theorem isPrefixOf_append_drop {p s : Str} (h : p.isPrefixOf s = true) :
    p ++ List.drop p.length s = s := by
  have hpre : p <+: s := List.isPrefixOf_iff_prefix.mp h
  obtain ⟨t, ht⟩ := hpre
  subst ht
  simp

theorem replaceGo_self (fuel : Nat) (s k : Str) (hf : s.length ≤ fuel) :
    replaceGo fuel s k k = s := by
  induction fuel generalizing s with
  | zero => cases s <;> rfl
  | succ n ih =>
    cases s with
    | nil => rfl
    | cons c rest =>
      rw [replaceGo]
      by_cases hk : k = []
      · rw [if_pos hk]
      · rw [if_neg hk]
        by_cases hp : k.isPrefixOf (c :: rest) = true
        · have hlen : 1 ≤ k.length := by
            cases k with
            | nil => exact absurd rfl hk
            | cons a t => simp
          have hb : (List.drop k.length (c :: rest)).length ≤ n := by
            simp only [List.length_drop, List.length_cons]
            simp only [List.length_cons] at hf
            omega
          rw [if_pos hp, ih _ hb]
          exact isPrefixOf_append_drop hp
        · rw [if_neg hp, ih rest (by simp only [List.length_cons] at hf; omega)]

theorem replaceAll_self (s k : Str) : replaceAll s k k = s :=
  replaceGo_self s.length s k le_rfl

-- ### Gazetteer (src/geocoding_full.py)

/-- A transit stop, mirroring the `TransitStop` dataclass. -/
structure TransitStop where
  stop_id : Str
  stop_name : Str
  stop_lat : ℚ
  stop_lon : ℚ
  aliases : List Str
deriving DecidableEq

/-- The static Alexandria GTFS stop table from
`AlexandriaGeocoder._load_all_alexandria_stops` (id, name, lat, lon). -/

def stopsData : List (Nat × String × ℚ × ℚ) := [
  (1, "Borg Al-Arab Old Terminal", 30.883987, 29.497864),
  (2, "Baheeg Square", 30.901450, 29.544387),
  (3, "Al-Marwa Mosque", 30.903941, 29.5475212),
  (4, "Baheeg Traffic Department", 30.942326, 29.5933765),
  (5, "King Heights", 30.948885, 29.606113),
  (6, "Om Zeghyo", 31.0713418, 29.7615553),
  (7, "Al-Madfan", 31.0751035, 29.7532603),
  (8, "Al-Masaken", 31.076461, 29.747692),
  (9, "Al-Emam Al-Shafaay Azhari Institute", 31.077242, 29.744465),
  (10, "Awal Al-Tawkeel", 31.073307, 29.759550),
  (11, "Zoro Cafe", 31.077735, 29.740312),
  (12, "Kilo 21", 31.07786, 29.737498),
  (13, "Street 6 Asafra", 31.265459, 30.00321),
  (17, "Asafra Station", 31.269167, 30.00663),
  (21, "Asafra Station", 31.267844, 30.009992),
  (32, "Street 45 - Miami Bridge", 31.267516, 30.000048),
  (48, "Abu Qir Station", 31.320357, 30.062969),
  (50, "Abu Qir Club", 31.318915, 30.062263),
  (52, "Abu Qir Train Station", 31.317801, 30.061648),
  (54, "AAST Intersection", 31.30886, 30.058856),
  (56, "Abu Qir Engineering Company", 31.315975, 30.060867),
  (58, "Administration Station", 31.304387, 30.057650),
  (60, "Street 16 (Montazah)", 31.302066, 30.062691),
  (61, "El Sadat Mosque Abu Qir", 31.300619, 30.056728),
  (63, "Al Souq Entrance Abu Qir", 31.296131, 30.054943),
  (65, "Al Maamoura", 31.291855, 30.052065),
  (67, "Al Islah", 31.284620, 30.039818),
  (69, "Maamoura Children Park", 31.284028, 30.035003),
  (71, "Maamoura Gates", 31.283503, 30.027416),
  (73, "Street 25 Entrance", 31.261930, 30.071091),
  (75, "Al Montazah Train Station", 31.282523, 30.020785),
  (77, "El Mandara Bridge", 31.280395, 30.016220),
  (79, "El Mandara", 31.280875, 30.015126),
  (81, "El Mandara South", 31.276085, 30.017597),
  (83, "School of Islamic Studies", 31.271116, 30.023042),
  (85, "Al Milaha", 31.264476, 30.027827),
  (87, "Al Berolos Canal", 31.273371, 30.058551),
  (88, "Street 45 Asafra", 31.261259, 30.010096),
  (90, "Street 45 Asafra Church", 31.260051, 30.011648),
  (92, "Oqba Ibn Nafea Hospital", 31.261862, 30.009202),
  (94, "Street 18 Asafra", 31.262648, 30.007861),
  (96, "Abu Omar Pastry Asafra", 31.264053, 30.005483),
  (98, "Asafra Station", 31.270327, 30.005421),
  (100, "Asafra Train Station", 31.273157, 30.008148),
  (101, "El Mandara Square", 31.280202, 30.012224),
  (102, "Sheraton Montazah", 31.281670, 30.010697),
  (104, "Water Company El Mandara", 31.279722, 30.009345),
  (106, "Makram Ice Cream El Mandara", 31.277990, 30.007133),
  (108, "El Nasreya El Qadema", 30.998390, 29.787749),
  (110, "El Tayeb El Nasreya", 31.001647, 29.785412),
  (112, "Green Gate El Nasreya", 31.006483, 29.792355),
  (114, "Amreya Hospital", 31.011924, 29.798221),
  (116, "Amreya Station", 31.009607, 29.805425),
  (119, "El Ola Company Amreya", 31.005577, 29.804039),
  (120, "Amreya Bridge", 31.020498, 29.794159),
  (122, "Izbat Hawd 10", 31.243673, 30.048265),
  (123, "Shahd El Maleka", 31.259586, 30.018943),
  (125, "King House Cafe", 31.261659, 30.022582),
  (127, "Awel 45", 31.269795, 30.998139),
  (129, "Azza Asafra", 31.274639, 30.001705),
  (131, "Gad Asafra", 31.271908, 29.999123),
  (133, "Skandar Ibrahim - Courniche", 31.270267, 29.993477),
  (135, "Izbet Hawd 12", 31.259442, 30.054319),
  (136, "Mostafa Kamel - 45 Street", 31.258351, 30.015979),
  (138, "Al Amrawy Mosque", 31.256301, 30.013529),
  (140, "Mostafa Kamel - Al Bahreya St", 31.253418, 30.010225),
  (142, "Misr Gas Station - Mostafa Kamel", 31.248387, 30.003204),
  (144, "Alexandria Agricultural School", 31.250890, 30.007194),
  (146, "Khorshid", 31.198029, 30.036089),
  (148, "Khorshid Central", 31.196838, 30.039171),
  (150, "Asher Men Ramadan St", 31.261717, 29.998549),
  (151, "Faisal Police Station Asafrah", 31.263019, 29.999528),
  (152, "Gehan Square", 31.261919, 29.993007),
  (154, "Awel Gamal Abdelnaser St", 31.269692, 30.001663),
  (155, "Bahary (Ras Al Tin)", 31.202041, 29.876082),
  (157, "Navy Forces - Bahary", 31.203677, 29.874700),
  (158, "Al Sheikh Wafiq - Bahary", 31.204122, 29.875741),
  (160, "Fathallah - Bahary", 31.204925, 29.877454),
  (162, "Alexandria Navy Scouts", 31.206091, 29.878518),
  (164, "Qasr Sakafet El Anfoshy", 31.209847, 29.879240),
  (165, "Anfoushy Police Station", 31.209968, 29.881695),
  (167, "Carrefour - Desert Road", 31.16851, 29.934719),
  (169, "Elite Hospital", 31.172732, 29.943355),
  (171, "El Bambi", 31.175488, 29.948260),
  (173, "IBCA International School", 31.178913, 29.955883),
  (175, "Awayed Post Office", 31.211489, 30.008273),
  (178, "Al Maraghi", 31.208809, 30.020825),
  (180, "Al Rahma St - Khorshid", 31.206258, 30.029978),
  (182, "Farouq Cafe - Courniche", 31.203867, 29.885535),
  (184, "Fish Market - Courniche", 31.202045, 29.887846),
  (186, "Court Complex - Courniche", 31.201110, 29.889844),
  (188, "El Mansheya Station", 31.199740, 29.895185),
  (190, "Raml Station", 31.200331, 29.899098),
  (192, "Raml Station - Courniche", 31.201157, 29.898789),
  (194, "French Consulate", 31.200503, 29.895198),
  (196, "Al Khaledeen - Courniche", 31.203164, 29.902062),
  (198, "Misr Gas Station - Courniche", 31.206635, 29.905654),
  (200, "Dental School", 31.203854, 29.906754),
  (201, "Al Khaledeen", 31.202897, 29.902976),
  (202, "El Mansheya Station", 31.199353, 29.895700),
  (203, "Miami - Courniche", 31.270044, 29.991522),
  (205, "Ber Masoud", 31.269314, 29.987113),
  (207, "Abu Dhabi Bank - Sidi Bishr", 31.265591, 29.987159),
  (209, "Sidi Bishr Beach", 31.262307, 29.984377),
  (211, "Mohamed Naguib Square", 31.259311, 29.980898),
  (214, "Al Rahman Mosque - Courniche", 31.257247, 29.978774),
  (216, "Sidi Bishr Tram Station", 31.252996, 29.976843),
  (218, "Al Mahrousa Tunnel", 31.254816, 29.975639),
  (220, "San Stefano", 31.246068, 29.965570),
  (222, "Luran Station", 31.249398, 29.971624),
  (223, "Quta (Soter)", 31.208106, 29.906747),
  (225, "Alexandria University - Courniche", 31.210804, 29.912727),
  (227, "Shatby Hospital Mosque", 31.208828, 29.912733),
  (229, "Shatby Pedestrian Tunnel", 31.211945, 29.916118),
  (231, "Gleem Pedestrian Tunnel", 31.240982, 29.959533),
  (233, "Mohandeseen Pedestrian Tunnel", 31.239174, 29.954171),
  (235, "Sun Rise Hotel", 31.232975, 29.946202),
  (237, "Stanley Bridge", 31.236206, 29.950122),
  (239, "The Walk - Sidi Gaber", 31.227199, 29.938278),
  (241, "Camp Shezar", 31.215374, 29.921719),
  (243, "Sporting - Courniche", 31.221021, 29.930492),
  (245, "Cleopatra Pedestrian Bridge", 31.224575, 29.935015),
  (247, "Hanuvil Gameaya", 31.111973, 29.758809),
  (248, "Al Gomrok Police Station", 31.198555, 29.882496),
  (249, "Hany Village", 31.031522, 29.785609),
  (251, "Free Zone", 31.036524, 29.782195),
  (253, "Bab Wahed", 31.200951, 29.881302),
  (254, "El Malaha - Asafra", 31.268037, 30.018908),
  (255, "Tamween Montazah", 31.258167, 29.987767),
  (257, "Sidi Bishr Station", 31.256865, 29.991403),
  (261, "Victoria Station", 31.248845, 29.980624),
  (263, "Victoria College", 31.247678, 29.978304),
  (265, "E-Post Victora", 31.251207, 29.984817),
  (267, "Al Seyouf", 31.241168, 29.997369),
  (268, "Abou Kamal - Al Seyouf", 31.240992, 29.998336),
  (270, "Falaki - Al Seyouf", 31.241222, 29.998835),
  (271, "Madares St - Al Seyouf", 31.237967, 29.999014),
  (273, "Al Seyouf Square", 31.24058, 29.992509),
  (274, "El Saah Square", 31.244342, 29.985606),
  (279, "B-Tech Mostafa Kamel", 31.246437, 29.992494),
  (281, "Malak Hefny St", 31.253722, 29.988864),
  (283, "Street 15", 31.251034, 29.991799),
  (284, "Jewelery Museum", 31.239650, 29.964262),
  (286, "Bakus", 31.235818, 29.966513),
  (291, "Al Wezara Tram", 31.231895, 29.956418),
  (293, "Abu Suliman", 31.232121, 29.982893),
  (295, "Health Insurance Al Seyouf", 31.230062, 29.993247),
  (296, "Pedestrian Bridge - Ring Road", 31.213357, 29.993606),
  (298, "Awayed Bridge Start", 31.215669, 29.994044),
  (300, "El Awayed", 31.217499, 29.993861),
  (304, "El Awayed Bridge End", 31.222197, 29.993587),
  (308, "Entry to Abu Suliman", 31.224578, 29.979563),
  (310, "Namos Bridge", 31.223723, 29.975230),
  (313, "Gabriel Station Bazar", 31.238525, 29.976290),
  (314, "Bait Al Gomla Market", 31.238747, 29.979583),
  (315, "Wekala Ishterakeya", 31.238474, 29.982424),
  (317, "Al Hagar Pedestrian Bridge", 31.220301, 29.965052),
  (320, "Victor Emmanuel Square", 31.214177, 29.944853),
  (323, "Sidi Gaber Station", 31.218117, 29.941997),
  (328, "Abis Bridge", 31.203670, 29.993991),
  (330, "Abis Traffic Light", 31.174897, 29.979008),
  (332, "Anany Factory", 31.180540, 29.991436),
  (334, "Ezbet Saad", 31.207976, 29.941022),
  (337, "Admon Fremon St", 31.208387, 29.947496),
  (339, "Gyad Club", 31.213487, 29.949469),
  (341, "Mansour Opel Car Showroom", 31.225213, 29.94755),
  (343, "Green Plaza", 31.209124, 29.962998),
  (345, "Itihad Club", 31.203727, 29.975989),
  (347, "Ali Ibn Taleb Mosque - Smouha", 31.212550, 29.940482),
  (349, "Ibrahimeya Fly-over", 31.208693, 29.934206),
  (351, "Hadra", 31.204794, 29.936128),
  (352, "Antoniadis", 31.203226, 29.94066),
  (355, "El Mansheya", 31.197631, 29.892740),
  (356, "Gamarek Club", 31.193035, 29.885117),
  (357, "Darwish Factory", 31.188877, 29.886331),
  (358, "Train Station (Al Shohadaa)", 31.193563, 29.90258),
  (363, "Kafr Ashry", 31.181795, 29.884821),
  (365, "Al Wardiyan", 31.162603, 29.866732),
  (367, "Al Gamal Mosque", 31.168011, 29.869020),
  (369, "Al Wardiyan Police Station", 31.164115, 29.863724),
  (371, "Dish Horus", 31.167953, 29.872415),
  (373, "Al Qibary Bridge", 31.176825, 29.879121),
  (375, "Fatma Al Zahraa - Marsa Matrouh Rd", 31.108534, 29.785294),
  (377, "Agamy Star", 31.110251, 29.787984),
  (379, "Al Bitash", 31.114477, 29.794305),
  (382, "Shahr Al Asal", 31.133050, 29.783860),
  (383, "Port Gate", 31.122073, 29.805347),
  (385, "Royal Complex Hall", 31.128322, 29.813366),
  (387, "Fahmy Restaurant", 31.133528, 29.819134),
  (388, "Al Mohandes Mall", 31.135012, 29.821644),
  (389, "Mostaamara", 31.065189, 29.816408),
  (391, "Abdel Kader Entrance", 31.078725, 29.842012),
  (393, "Abdel Kader Station", 31.073021, 29.850206),
  (395, "Toshky Entrance", 31.091200, 29.852864),
  (397, "Abis 8", 31.127255, 29.942771),
  (398, "High Speed Rail Station", 31.153356, 29.922601),
  (400, "Karmouz Hospital", 31.187331, 29.894223),
  (402, "Alexandria Stadium", 31.196257, 29.912830),
  (404, "Moharam Bek Bridge", 31.192872, 29.923180),
  (406, "Suez Canal Pedestrian Bridge", 31.195490, 29.920153),
  (409, "Bab Sharq", 31.201252, 29.915987),
  (412, "Rahman Mosque", 31.205654, 29.909955),
  (413, "Misr Gas Station - Ibrahimeya", 31.207772, 29.929426),
  (415, "Sharqi Water Station", 31.200104, 29.919192),
  (416, "Hadra", 31.201377, 29.93336),
  (418, "Kabo", 31.199118, 29.933344),
  (420, "Karmus", 31.179512, 29.901565),
  (423, "Moharam Bek", 31.183812, 29.926513),
  (425, "El Mawqaf El Geded", 31.180134, 29.913627),
  (429, "Nozha Administration", 31.188251, 29.938024),
  (431, "Seka Hadeed Bridge", 31.197434, 29.953859),
  (434, "Navy Police Station", 31.124783, 29.894353),
  (436, "Maks Post Office", 31.151076, 29.841783),
  (438, "Italian Hospital", 31.199889, 29.925672),
  (439, "Mazroa Gold", 31.232776, 29.961750),
  (440, "Victoria Station", 31.249111, 29.980477),
  (441, "Baheeg Square", 30.901623, 29.544311),
  (442, "Al-Milaha", 31.263673, 30.028506),
  (443, "Egyptian Red Crescent - Bakus", 31.230842, 29.972046),
  (444, "El-Rassafa", 31.191188, 29.91891),
  (445, "El Awayed", 31.218703, 29.994491),
  (446, "Al Seyouf", 31.241104, 29.997384),
  (447, "Falaki - Al Seyouf", 31.241375, 29.998826)]

/-- The `arabic_translations` table of `_generate_aliases`. -/

def arabicTranslations : List (Str × List Str) := [
  (str "Station", [str "محطة", str "استيشن"]),
  (str "Hospital", [str "مستشفى", str "هوسبيتال"]),
  (str "School", [str "مدرسة", str "سكوله"]),
  (str "Club", [str "نادي", str "كلوب"]),
  (str "Bridge", [str "كوبري", str "جسر"]),
  (str "Square", [str "ميدان", str "سكوير"]),
  (str "Mosque", [str "مسجد", str "جامع"]),
  (str "Police", [str "شرطة", str "بوليس"]),
  (str "University", [str "جامعة", str "يونيفرسيتي"]),
  (str "Post Office", [str "مكتب بريد", str "بوسطة"]),
  (str "Gas Station", [str "محطة بنزين", str "جازيره"]),
  (str "Tunnel", [str "نفق", str "تونيل"]),
  (str "Market", [str "سوق", str "ماركت"]),
  (str "Mall", [str "مول", str "سنتر"]),
  (str "Factory", [str "مصنع", str "فابريكا"]),
  (str "Gate", [str "بوابة", str "جيت"]),
  (str "Cafe", [str "كافيه", str "قهوة"]),
  (str "Restaurant", [str "مطعم", str "ريستوران"])]

/-- The `location_aliases` table of `_generate_aliases`. -/

def locationAliases : List (Str × List Str) := [
  (str "Victoria", [str "فيكتوريا", str "فيكتوري"]),
  (str "Montazah", [str "المنتزه", str "منتزه", str "منتزة"]),
  (str "Sidi Gaber", [str "سيدي جابر", str "سيدى جابر"]),
  (str "Raml", [str "الرمل", str "رمل"]),
  (str "Mansheya", [str "المنشية", str "منشية"]),
  (str "Sidi Bishr", [str "سيدي بشر", str "سيدى بشر"]),
  (str "Gleem", [str "جليم"]),
  (str "Sporting", [str "السبورتنج", str "سبورتنج"]),
  (str "Smouha", [str "سموحة"]),
  (str "Karmouz", [str "كرموز"]),
  (str "Abu Qir", [str "أبو قير", str "ابو قير"]),
  (str "Agamy", [str "العجمي"]),
  (str "Stanley", [str "ستانلي"]),
  (str "San Stefano", [str "سان ستيفانو"]),
  (str "Miami", [str "ميامي"]),
  (str "Bahary", [str "البحري"]),
  (str "Asafra", [str "العصفرة"]),
  (str "Mandara", [str "المندرة"]),
  (str "Amreya", [str "العامرية"]),
  (str "Falaki", [str "الفلكي", str "فلكي"]),
  (str "Seyouf", [str "السيوف"]),
  (str "Khorshid", [str "خورشيد"])]

/-- Alias generation for a stop name (`_generate_aliases`): the name, its
lowercase form, each whitespace-separated word lowercased, and the Arabic
translation/transliteration lists of every table entry whose lowercased
key occurs in the lowercased word; finally empty strings are dropped and
duplicates removed (Python materialises `list(set(...))`, whose order is
implementation-defined; nothing downstream observes more than an
unspecified iteration order, so `List.dedup` stands in for it). -/
def generateAliases (stop_name : Str) : List Str :=
  let base := [stop_name, strLower stop_name]
  let fromParts := (splitWs stop_name).flatMap (fun part =>
    strLower part ::
      ((arabicTranslations.filter
          (fun kv => strContains (strLower part) (strLower kv.1))).flatMap (fun kv => kv.2) ++
       (locationAliases.filter
          (fun kv => strContains (strLower part) (strLower kv.1))).flatMap (fun kv => kv.2)))
  ((base ++ fromParts).filter (fun a => !a.isEmpty)).dedup

/-- One stop record as constructed in `_load_all_alexandria_stops`. -/
def mkStop (d : Nat × String × ℚ × ℚ) : TransitStop :=
  { stop_id := str (Nat.repr d.1)
    stop_name := str d.2.1
    stop_lat := d.2.2.1
    stop_lon := d.2.2.2
    aliases := generateAliases (str d.2.1) }

/-- The geocoder stop list (`self.stops`). -/
def stops : List TransitStop := stopsData.map mkStop

/-- All `(alias.lower(), stop)` insertions performed by
`_create_stop_dictionary`, in insertion order. -/
def stopPairs : List (Str × TransitStop) :=
  stops.flatMap (fun s => s.aliases.map (fun a => (strLower a, s)))

/-- Lookup in the stop dictionary.  A Python dict maps each key to the
most recently written value, so looking up `k` returns the value of the
last insertion with key `k`. -/
def dictFind (ps : List (Str × TransitStop)) (k : Str) : Option TransitStop :=
  ps.foldl (fun acc p => if p.1 = k then some p.2 else acc) none

/-- Keys of the insertions in first-insertion order (Python dicts iterate
keys in the order each key was first inserted). -/
def keysFirst : List (Str × TransitStop) → List Str
  | [] => []
  | p :: ps => p.1 :: (keysFirst ps).filter (fun k => k ≠ p.1)

/-- The `(alias, stop)` items of `self.stop_dict` in Python dict iteration
order: keys in first-insertion order, each carrying its last-written
value. -/
def dictItems : List (Str × TransitStop) :=
  (keysFirst stopPairs).filterMap (fun k => (dictFind stopPairs k).map (fun s => (k, s)))

/-- The `arabic_patterns` anchor-translation table inside `geocode`. -/

def arabicPatterns : List (Str × Str) := [
  (str "الفلكي", str "Falaki"),
  (str "فلكي", str "Falaki"),
  (str "السيوف", str "Seyouf"),
  (str "سيوف", str "Seyouf"),
  (str "سيدي جابر", str "Sidi Gaber"),
  (str "سيدى جابر", str "Sidi Gaber"),
  (str "فيكتوريا", str "Victoria"),
  (str "المنتزه", str "Montazah"),
  (str "منتزه", str "Montazah"),
  (str "الرمل", str "Raml"),
  (str "رمل", str "Raml")]

/-- `AlexandriaGeocoder.geocode`: lowercase and strip the input, then
(1) direct dictionary lookup, (2) first bidirectional-substring match over
the dictionary items, (3) Arabic anchor translation followed by a scan of
the stop list for a canonical name containing the translated token. -/
def geocodeKey (location_lower : Str) : Option (ℚ × ℚ × Str) :=
  match dictFind stopPairs location_lower with
  | some s => some (s.stop_lat, s.stop_lon, s.stop_name)
  | none =>
    match dictItems.find? (fun p =>
        strContains location_lower p.1 || strContains p.1 location_lower) with
    | some p => some (p.2.stop_lat, p.2.stop_lon, p.2.stop_name)
    | none =>
      arabicPatterns.findSome? (fun ae =>
        if strContains location_lower ae.1 then
          (stops.find? (fun s =>
            strContains (strLower s.stop_name) (strLower ae.2))).map
            (fun s => (s.stop_lat, s.stop_lon, s.stop_name))
        else none)

/-- `AlexandriaGeocoder.geocode` entry point: `location_lower` is the
stripped, lowercased input. -/
def geocode (location_name : Str) : Option (ℚ × ℚ × Str) :=
  geocodeKey (strip (strLower location_name))

-- ### Dictionary-lookup semantics and geocoder soundness

/-- True when the stop registered the (lowercased) key `k` in the stop
dictionary: `k` is among its aliases lowercased. -/
def registersKey (s : TransitStop) (k : Str) : Bool :=
  (s.aliases.map strLower).contains k

/-- The last stop in the list registering key `k`; by last-write-wins this
is the stop the dictionary maps `k` to. -/
def lastRegistrant (k : Str) : Option TransitStop :=
  stops.foldl (fun acc s => if registersKey s k then some s else acc) none

theorem foldl_update_aliasBlock (k : Str) (s : TransitStop) (as : List Str)
    (acc : Option TransitStop) :
    (as.map (fun a => (strLower a, s))).foldl
        (fun acc p => if p.1 = k then some p.2 else acc) acc
      = if (as.map strLower).contains k then some s else acc := by
  induction as generalizing acc with
  | nil => simp
  | cons a t ih =>
    rw [List.map_cons, List.foldl_cons, ih, List.map_cons]
    by_cases h : strLower a = k
    · have hc : (strLower a :: t.map strLower).contains k = true := by
        simp [List.contains_cons, h]
      rw [hc]
      simp [h]
    · have hc : (strLower a :: t.map strLower).contains k
          = (t.map strLower).contains k := by
        simp [List.contains_cons, Ne.symm h]
      rw [hc, if_neg h]

theorem dictFind_eq_lastRegistrant (k : Str) :
    dictFind stopPairs k = lastRegistrant k := by
  have H : ∀ (l : List TransitStop) (acc : Option TransitStop),
      (l.flatMap (fun s => s.aliases.map (fun a => (strLower a, s)))).foldl
          (fun acc p => if p.1 = k then some p.2 else acc) acc
        = l.foldl (fun acc s => if registersKey s k then some s else acc) acc := by
    intro l
    induction l with
    | nil => intro acc; rfl
    | cons s t ih =>
      intro acc
      rw [List.flatMap_cons, List.foldl_append, foldl_update_aliasBlock,
        List.foldl_cons, ih]
      rfl
  exact H stops none

theorem foldl_lastUpd_mem {P : TransitStop → Bool} {r : TransitStop} :
    ∀ (l : List TransitStop) (acc : Option TransitStop),
      l.foldl (fun acc s => if P s then some s else acc) acc = some r →
      r ∈ l ∨ acc = some r := by
  intro l
  induction l with
  | nil => intro acc h; exact Or.inr h
  | cons s t ih =>
    intro acc h
    rw [List.foldl_cons] at h
    rcases ih _ h with h2 | h2
    · exact Or.inl (List.mem_cons_of_mem _ h2)
    · by_cases hp : P s = true
      · rw [if_pos hp] at h2
        have hsr : s = r := Option.some.inj h2
        exact Or.inl (hsr ▸ List.mem_cons_self s t)
      · rw [if_neg hp] at h2
        exact Or.inr h2

theorem foldl_lastUpd_isSome {P : TransitStop → Bool} {s0 : TransitStop} :
    ∀ (l : List TransitStop) (acc : Option TransitStop),
      s0 ∈ l → P s0 = true → ∃ r, l.foldl (fun acc s => if P s then some s else acc) acc = some r := by
  have Hmono : ∀ (l : List TransitStop) (r : TransitStop),
      ∃ v, l.foldl (fun acc s => if P s then some s else acc) (some r) = some v := by
    intro l
    induction l with
    | nil => intro r; exact ⟨r, rfl⟩
    | cons s t ih =>
      intro r
      rw [List.foldl_cons]
      by_cases hp : P s = true
      · rw [if_pos hp]; exact ih s
      · rw [if_neg hp]; exact ih r
  intro l
  induction l with
  | nil => intro acc h; exact absurd h (List.not_mem_nil s0)
  | cons s t ih =>
    intro acc hmem hp
    rw [List.foldl_cons]
    rcases List.mem_cons.mp hmem with he | ht
    · subst he
      rw [if_pos hp]
      exact Hmono t s0
    · exact ih _ ht hp

theorem lastRegistrant_mem {k : Str} {r : TransitStop}
    (h : lastRegistrant k = some r) : r ∈ stops := by
  rcases foldl_lastUpd_mem stops none h with h2 | h2
  · exact h2
  · exact absurd h2 (by simp)

theorem lastRegistrant_isSome {k : Str} {s : TransitStop}
    (hs : s ∈ stops) (hk : registersKey s k = true) :
    ∃ r, lastRegistrant k = some r :=
  foldl_lastUpd_isSome stops none hs hk

theorem strLower_mem_generateAliases (name : Str) (h : name ≠ []) :
    strLower name ∈ generateAliases name := by
  unfold generateAliases
  rw [List.mem_dedup, List.mem_filter]
  constructor
  · exact List.mem_append_left _ (by simp)
  · simpa [List.isEmpty_eq_false] using strLower_ne_nil h

theorem stops_get_eq (i : Nat) (h : i < stops.length) :
    stops.get ⟨i, h⟩
      = mkStop (stopsData.get ⟨i, by simpa [stops] using h⟩) := by
  simp [stops]

theorem stopsData_names_nonempty :
    stopsData.all (fun d => !(str d.2.1).isEmpty) = true := by
  with_unfolding_all decide

theorem stopsData_names_clean :
    stopsData.all (fun d => strip (strLower (str d.2.1)) == strLower (str d.2.1)) = true := by
  with_unfolding_all decide

theorem stop_name_ne_nil (i : Nat) (h : i < stops.length) :
    (stops.get ⟨i, h⟩).stop_name ≠ [] := by
  rw [stops_get_eq i h]
  have hmem := @List.getElem_mem _ stopsData i (by simpa [stops] using h)
  have := List.all_eq_true.mp stopsData_names_nonempty _ hmem
  simpa [mkStop, List.isEmpty_eq_false] using this

theorem stop_name_clean (i : Nat) (h : i < stops.length) :
    strip (strLower (stops.get ⟨i, h⟩).stop_name)
      = strLower (stops.get ⟨i, h⟩).stop_name := by
  rw [stops_get_eq i h]
  have hmem := @List.getElem_mem _ stopsData i (by simpa [stops] using h)
  have := List.all_eq_true.mp stopsData_names_clean _ hmem
  simpa [mkStop] using this

theorem registersKey_lower_name (i : Nat) (h : i < stops.length) :
    registersKey (stops.get ⟨i, h⟩) (strLower (stops.get ⟨i, h⟩).stop_name) = true := by
  have hmem : strLower (stops.get ⟨i, h⟩).stop_name ∈ (stops.get ⟨i, h⟩).aliases := by
    rw [stops_get_eq i h]
    exact strLower_mem_generateAliases _ (by
      have := stop_name_ne_nil i h
      rwa [stops_get_eq i h] at this)
  have hmap : strLower (strLower (stops.get ⟨i, h⟩).stop_name)
      ∈ (stops.get ⟨i, h⟩).aliases.map strLower := List.mem_map_of_mem _ hmem
  rw [strLower_idem] at hmap
  simpa [registersKey, List.contains, List.elem_iff] using hmap

/-- Unfolds `geocode` on a direct dictionary hit. -/
theorem geocode_direct_hit {input : Str} {r : TransitStop}
    (h : dictFind stopPairs (strip (strLower input)) = some r) :
    geocode input = some (r.stop_lat, r.stop_lon, r.stop_name) := by
  unfold geocode geocodeKey
  rw [h]

/-- Key helper: geocoding the lowercased full name of the `i`-th stop in
the list returns the coordinates and canonical name of the last stop that
registered that lowered name as an alias. -/
theorem geocode_strLower_name_eq (i : Nat) (h : i < stops.length) :
    geocode (strLower (stops.get ⟨i, h⟩).stop_name)
      = (lastRegistrant (strLower (stops.get ⟨i, h⟩).stop_name)).map
          (fun s => (s.stop_lat, s.stop_lon, s.stop_name)) := by
  obtain ⟨r, hr⟩ := lastRegistrant_isSome (List.get_mem stops i h) (registersKey_lower_name i h)
  have hkey : strip (strLower (strLower (stops.get ⟨i, h⟩).stop_name))
      = strLower (stops.get ⟨i, h⟩).stop_name := by
    rw [strLower_idem]
    exact stop_name_clean i h
  have hfind : dictFind stopPairs (strip (strLower (strLower (stops.get ⟨i, h⟩).stop_name)))
      = some r := by
    rw [hkey, dictFind_eq_lastRegistrant]
    exact hr
  rw [geocode_direct_hit hfind, hr]
  rfl

theorem findSome?_mem {α β : Type} {f : α → Option β} {l : List α} {b : β}
    (h : l.findSome? f = some b) : ∃ a, a ∈ l ∧ f a = some b := by
  induction l with
  | nil => simp [List.findSome?] at h
  | cons x t ih =>
    rw [List.findSome?_cons] at h
    cases hx : f x with
    | some v =>
      rw [hx] at h
      refine ⟨x, List.mem_cons_self x t, ?_⟩
      rw [hx]
      simpa using h
    | none =>
      rw [hx] at h
      obtain ⟨a, ha, hfa⟩ := ih h
      exact ⟨a, List.mem_cons_of_mem _ ha, hfa⟩

/-- C1 counterexample: the stop list registers the name "Asafra Station"
for three distinct stops (indices 13, 14 and 42, ids 17, 21 and 98) with
different coordinates, so geocoding the shared lowercased name cannot
return each stop's own latitude: the claimed property is false. -/
theorem geocode_own_data_counterexample :
    ¬ (∀ (i : Nat) (h : i < stops.length),
        geocode (strLower (stops.get ⟨i, h⟩).stop_name)
          = some ((stops.get ⟨i, h⟩).stop_lat, (stops.get ⟨i, h⟩).stop_lon,
              (stops.get ⟨i, h⟩).stop_name)) := by
  intro H
  have h13 : (13 : Nat) < stops.length := by with_unfolding_all decide
  have h42 : (42 : Nat) < stops.length := by with_unfolding_all decide
  have e1 := H 13 h13
  have e2 := H 42 h42
  have hname : (stops.get ⟨13, h13⟩).stop_name = (stops.get ⟨42, h42⟩).stop_name := by
    show (stops.get ⟨13, by with_unfolding_all decide⟩).stop_name
        = (stops.get ⟨42, by with_unfolding_all decide⟩).stop_name
    with_unfolding_all decide
  rw [hname] at e1
  have heq := Option.some.inj (e1.symm.trans e2)
  have hlat : (stops.get ⟨13, h13⟩).stop_lat = (stops.get ⟨42, h42⟩).stop_lat :=
    congrArg Prod.fst heq
  refine absurd hlat ?_
  show ¬ (stops.get ⟨13, by with_unfolding_all decide⟩).stop_lat
      = (stops.get ⟨42, by with_unfolding_all decide⟩).stop_lat
  with_unfolding_all decide

/-- C1 (amended): for every Stop in the gazetteer's static stop list,
calling geocode on the lowercased full stop name returns the latitude,
longitude and canonical display name of the LAST Stop in the list whose
alias set (lowercased) contains that name — the Stop itself exactly when
no later Stop registered the same alias (last-write-wins index
construction). -/
theorem geocode_lowername_returns_last_registrant (i : Nat) (h : i < stops.length) :
    geocode (strLower (stops.get ⟨i, h⟩).stop_name)
      = (lastRegistrant (strLower (stops.get ⟨i, h⟩).stop_name)).map
          (fun s => (s.stop_lat, s.stop_lon, s.stop_name)) :=
  geocode_strLower_name_eq i h

/-- C1 witness: the amended statement instantiated at the first stop. -/
theorem geocode_lowername_returns_last_registrant_witness :
    geocode (strLower (stops.get ⟨0, by with_unfolding_all decide⟩).stop_name)
      = (lastRegistrant (strLower (stops.get ⟨0, by with_unfolding_all decide⟩).stop_name)).map
          (fun s => (s.stop_lat, s.stop_lon, s.stop_name)) :=
  geocode_lowername_returns_last_registrant 0 (by with_unfolding_all decide)

/-- C9: every Stop constructed by the gazetteer has the lowercased full
stop name among its generated aliases. -/
theorem aliases_contain_lowercased_name (i : Nat) (h : i < stops.length) :
    strLower (stops.get ⟨i, h⟩).stop_name ∈ (stops.get ⟨i, h⟩).aliases := by
  rw [stops_get_eq i h]
  have hne : (mkStop (stopsData.get ⟨i, by simpa [stops] using h⟩)).stop_name ≠ [] := by
    have := stop_name_ne_nil i h
    rwa [stops_get_eq i h] at this
  exact strLower_mem_generateAliases _ hne

/-- C9 witness: the invariant instantiated at the first stop. -/
theorem aliases_contain_lowercased_name_witness :
    strLower (stops.get ⟨0, by with_unfolding_all decide⟩).stop_name
      ∈ (stops.get ⟨0, by with_unfolding_all decide⟩).aliases :=
  aliases_contain_lowercased_name 0 (by with_unfolding_all decide)

/-- C10: geocode is sound with respect to the gazetteer — every non-None
result is exactly the (stop_lat, stop_lon, stop_name) triple of some Stop
in the static stop list; coordinates and name are never fabricated or
mixed across Stops. -/
theorem geocode_sound (input : Str) (la lo : ℚ) (nm : Str)
    (h : geocode input = some (la, lo, nm)) :
    ∃ s, s ∈ stops ∧ s.stop_lat = la ∧ s.stop_lon = lo ∧ s.stop_name = nm := by
  unfold geocode geocodeKey at h
  split at h
  · next r hd =>
    have hmem : r ∈ stops := by
      apply lastRegistrant_mem
      rw [← dictFind_eq_lastRegistrant]
      exact hd
    simp only [Option.some.injEq, Prod.mk.injEq] at h
    exact ⟨r, hmem, h.1, h.2.1, h.2.2⟩
  · split at h
    · next p hf =>
      have hp : p ∈ dictItems := List.mem_of_find?_eq_some hf
      unfold dictItems at hp
      obtain ⟨k0, _, hk0⟩ := List.mem_filterMap.mp hp
      obtain ⟨s0, hs0, hps⟩ := Option.map_eq_some'.mp hk0
      have hmem : s0 ∈ stops := by
        apply lastRegistrant_mem
        rw [← dictFind_eq_lastRegistrant]
        exact hs0
      have hp2 : p.2 = s0 := by rw [← hps]
      simp only [Option.some.injEq, Prod.mk.injEq] at h
      exact ⟨s0, hmem, by rw [← hp2, h.1], by rw [← hp2, h.2.1], by rw [← hp2, h.2.2]⟩
    · next hf =>
      obtain ⟨ae, _, hae⟩ := findSome?_mem h
      by_cases hc : strContains (strip (strLower input)) ae.1 = true
      · rw [if_pos hc] at hae
        obtain ⟨s0, hs0, hfs⟩ := Option.map_eq_some'.mp hae
        have hmem : s0 ∈ stops := List.mem_of_find?_eq_some hs0
        simp only [Prod.mk.injEq] at hfs
        exact ⟨s0, hmem, hfs.1, hfs.2.1, hfs.2.2⟩
      · rw [if_neg hc] at hae
        exact absurd hae (by simp)

/-- C10 witness: a concrete input on which geocode returns a result, and
that result is a stop of the list. -/
theorem geocode_sound_witness :
    ∃ la lo nm, geocode (strLower (str "Borg Al-Arab Old Terminal")) = some (la, lo, nm) ∧
      ∃ s, s ∈ stops ∧ s.stop_lat = la ∧ s.stop_lon = lo ∧ s.stop_name = nm := by
  have h0 : (0 : Nat) < stops.length := by with_unfolding_all decide
  have hname : strLower (stops.get ⟨0, h0⟩).stop_name
      = strLower (str "Borg Al-Arab Old Terminal") := by
    show strLower (stops.get ⟨0, by with_unfolding_all decide⟩).stop_name
        = strLower (str "Borg Al-Arab Old Terminal")
    with_unfolding_all decide
  obtain ⟨r, hr⟩ := lastRegistrant_isSome (List.get_mem stops 0 h0) (registersKey_lower_name 0 h0)
  have hg : geocode (strLower (str "Borg Al-Arab Old Terminal"))
      = some (r.stop_lat, r.stop_lon, r.stop_name) := by
    rw [← hname, geocode_strLower_name_eq 0 h0, hr]
    rfl
  exact ⟨r.stop_lat, r.stop_lon, r.stop_name, hg,
    geocode_sound _ _ _ _ hg⟩

-- ### Language detection (src/transit_agent_final.py, detect_language)

/-- Membership in the Unicode Arabic block, mirroring the source's
comparison of each character against the bounds U+0600 and U+06FF. -/
def inArabicBlock (c : Nat) : Bool := decide (1536 ≤ c) && decide (c ≤ 1791)

/-- The inclusive code-point ranges of the Unicode letter categories
Lu/Ll/Lt/Lm/Lo (Unicode 14.0.0, as shipped with CPython 3.11) — exactly
the characters for which Python `str.isalpha` is true. -/
def alphaRanges : List (Nat × Nat) := [
  (65, 90),
  (97, 122),
  (170, 170),
  (181, 181),
  (186, 186),
  (192, 214),
  (216, 246),
  (248, 705),
  (710, 721),
  (736, 740),
  (748, 748),
  (750, 750),
  (880, 884),
  (886, 887),
  (890, 893),
  (895, 895),
  (902, 902),
  (904, 906),
  (908, 908),
  (910, 929),
  (931, 1013),
  (1015, 1153),
  (1162, 1327),
  (1329, 1366),
  (1369, 1369),
  (1376, 1416),
  (1488, 1514),
  (1519, 1522),
  (1568, 1610),
  (1646, 1647),
  (1649, 1747),
  (1749, 1749),
  (1765, 1766),
  (1774, 1775),
  (1786, 1788),
  (1791, 1791),
  (1808, 1808),
  (1810, 1839),
  (1869, 1957),
  (1969, 1969),
  (1994, 2026),
  (2036, 2037),
  (2042, 2042),
  (2048, 2069),
  (2074, 2074),
  (2084, 2084),
  (2088, 2088),
  (2112, 2136),
  (2144, 2154),
  (2160, 2183),
  (2185, 2190),
  (2208, 2249),
  (2308, 2361),
  (2365, 2365),
  (2384, 2384),
  (2392, 2401),
  (2417, 2432),
  (2437, 2444),
  (2447, 2448),
  (2451, 2472),
  (2474, 2480),
  (2482, 2482),
  (2486, 2489),
  (2493, 2493),
  (2510, 2510),
  (2524, 2525),
  (2527, 2529),
  (2544, 2545),
  (2556, 2556),
  (2565, 2570),
  (2575, 2576),
  (2579, 2600),
  (2602, 2608),
  (2610, 2611),
  (2613, 2614),
  (2616, 2617),
  (2649, 2652),
  (2654, 2654),
  (2674, 2676),
  (2693, 2701),
  (2703, 2705),
  (2707, 2728),
  (2730, 2736),
  (2738, 2739),
  (2741, 2745),
  (2749, 2749),
  (2768, 2768),
  (2784, 2785),
  (2809, 2809),
  (2821, 2828),
  (2831, 2832),
  (2835, 2856),
  (2858, 2864),
  (2866, 2867),
  (2869, 2873),
  (2877, 2877),
  (2908, 2909),
  (2911, 2913),
  (2929, 2929),
  (2947, 2947),
  (2949, 2954),
  (2958, 2960),
  (2962, 2965),
  (2969, 2970),
  (2972, 2972),
  (2974, 2975),
  (2979, 2980),
  (2984, 2986),
  (2990, 3001),
  (3024, 3024),
  (3077, 3084),
  (3086, 3088),
  (3090, 3112),
  (3114, 3129),
  (3133, 3133),
  (3160, 3162),
  (3165, 3165),
  (3168, 3169),
  (3200, 3200),
  (3205, 3212),
  (3214, 3216),
  (3218, 3240),
  (3242, 3251),
  (3253, 3257),
  (3261, 3261),
  (3293, 3294),
  (3296, 3297),
  (3313, 3314),
  (3332, 3340),
  (3342, 3344),
  (3346, 3386),
  (3389, 3389),
  (3406, 3406),
  (3412, 3414),
  (3423, 3425),
  (3450, 3455),
  (3461, 3478),
  (3482, 3505),
  (3507, 3515),
  (3517, 3517),
  (3520, 3526),
  (3585, 3632),
  (3634, 3635),
  (3648, 3654),
  (3713, 3714),
  (3716, 3716),
  (3718, 3722),
  (3724, 3747),
  (3749, 3749),
  (3751, 3760),
  (3762, 3763),
  (3773, 3773),
  (3776, 3780),
  (3782, 3782),
  (3804, 3807),
  (3840, 3840),
  (3904, 3911),
  (3913, 3948),
  (3976, 3980),
  (4096, 4138),
  (4159, 4159),
  (4176, 4181),
  (4186, 4189),
  (4193, 4193),
  (4197, 4198),
  (4206, 4208),
  (4213, 4225),
  (4238, 4238),
  (4256, 4293),
  (4295, 4295),
  (4301, 4301),
  (4304, 4346),
  (4348, 4680),
  (4682, 4685),
  (4688, 4694),
  (4696, 4696),
  (4698, 4701),
  (4704, 4744),
  (4746, 4749),
  (4752, 4784),
  (4786, 4789),
  (4792, 4798),
  (4800, 4800),
  (4802, 4805),
  (4808, 4822),
  (4824, 4880),
  (4882, 4885),
  (4888, 4954),
  (4992, 5007),
  (5024, 5109),
  (5112, 5117),
  (5121, 5740),
  (5743, 5759),
  (5761, 5786),
  (5792, 5866),
  (5873, 5880),
  (5888, 5905),
  (5919, 5937),
  (5952, 5969),
  (5984, 5996),
  (5998, 6000),
  (6016, 6067),
  (6103, 6103),
  (6108, 6108),
  (6176, 6264),
  (6272, 6276),
  (6279, 6312),
  (6314, 6314),
  (6320, 6389),
  (6400, 6430),
  (6480, 6509),
  (6512, 6516),
  (6528, 6571),
  (6576, 6601),
  (6656, 6678),
  (6688, 6740),
  (6823, 6823),
  (6917, 6963),
  (6981, 6988),
  (7043, 7072),
  (7086, 7087),
  (7098, 7141),
  (7168, 7203),
  (7245, 7247),
  (7258, 7293),
  (7296, 7304),
  (7312, 7354),
  (7357, 7359),
  (7401, 7404),
  (7406, 7411),
  (7413, 7414),
  (7418, 7418),
  (7424, 7615),
  (7680, 7957),
  (7960, 7965),
  (7968, 8005),
  (8008, 8013),
  (8016, 8023),
  (8025, 8025),
  (8027, 8027),
  (8029, 8029),
  (8031, 8061),
  (8064, 8116),
  (8118, 8124),
  (8126, 8126),
  (8130, 8132),
  (8134, 8140),
  (8144, 8147),
  (8150, 8155),
  (8160, 8172),
  (8178, 8180),
  (8182, 8188),
  (8305, 8305),
  (8319, 8319),
  (8336, 8348),
  (8450, 8450),
  (8455, 8455),
  (8458, 8467),
  (8469, 8469),
  (8473, 8477),
  (8484, 8484),
  (8486, 8486),
  (8488, 8488),
  (8490, 8493),
  (8495, 8505),
  (8508, 8511),
  (8517, 8521),
  (8526, 8526),
  (8579, 8580),
  (11264, 11492),
  (11499, 11502),
  (11506, 11507),
  (11520, 11557),
  (11559, 11559),
  (11565, 11565),
  (11568, 11623),
  (11631, 11631),
  (11648, 11670),
  (11680, 11686),
  (11688, 11694),
  (11696, 11702),
  (11704, 11710),
  (11712, 11718),
  (11720, 11726),
  (11728, 11734),
  (11736, 11742),
  (11823, 11823),
  (12293, 12294),
  (12337, 12341),
  (12347, 12348),
  (12353, 12438),
  (12445, 12447),
  (12449, 12538),
  (12540, 12543),
  (12549, 12591),
  (12593, 12686),
  (12704, 12735),
  (12784, 12799),
  (13312, 19903),
  (19968, 42124),
  (42192, 42237),
  (42240, 42508),
  (42512, 42527),
  (42538, 42539),
  (42560, 42606),
  (42623, 42653),
  (42656, 42725),
  (42775, 42783),
  (42786, 42888),
  (42891, 42954),
  (42960, 42961),
  (42963, 42963),
  (42965, 42969),
  (42994, 43009),
  (43011, 43013),
  (43015, 43018),
  (43020, 43042),
  (43072, 43123),
  (43138, 43187),
  (43250, 43255),
  (43259, 43259),
  (43261, 43262),
  (43274, 43301),
  (43312, 43334),
  (43360, 43388),
  (43396, 43442),
  (43471, 43471),
  (43488, 43492),
  (43494, 43503),
  (43514, 43518),
  (43520, 43560),
  (43584, 43586),
  (43588, 43595),
  (43616, 43638),
  (43642, 43642),
  (43646, 43695),
  (43697, 43697),
  (43701, 43702),
  (43705, 43709),
  (43712, 43712),
  (43714, 43714),
  (43739, 43741),
  (43744, 43754),
  (43762, 43764),
  (43777, 43782),
  (43785, 43790),
  (43793, 43798),
  (43808, 43814),
  (43816, 43822),
  (43824, 43866),
  (43868, 43881),
  (43888, 44002),
  (44032, 55203),
  (55216, 55238),
  (55243, 55291),
  (63744, 64109),
  (64112, 64217),
  (64256, 64262),
  (64275, 64279),
  (64285, 64285),
  (64287, 64296),
  (64298, 64310),
  (64312, 64316),
  (64318, 64318),
  (64320, 64321),
  (64323, 64324),
  (64326, 64433),
  (64467, 64829),
  (64848, 64911),
  (64914, 64967),
  (65008, 65019),
  (65136, 65140),
  (65142, 65276),
  (65313, 65338),
  (65345, 65370),
  (65382, 65470),
  (65474, 65479),
  (65482, 65487),
  (65490, 65495),
  (65498, 65500),
  (65536, 65547),
  (65549, 65574),
  (65576, 65594),
  (65596, 65597),
  (65599, 65613),
  (65616, 65629),
  (65664, 65786),
  (66176, 66204),
  (66208, 66256),
  (66304, 66335),
  (66349, 66368),
  (66370, 66377),
  (66384, 66421),
  (66432, 66461),
  (66464, 66499),
  (66504, 66511),
  (66560, 66717),
  (66736, 66771),
  (66776, 66811),
  (66816, 66855),
  (66864, 66915),
  (66928, 66938),
  (66940, 66954),
  (66956, 66962),
  (66964, 66965),
  (66967, 66977),
  (66979, 66993),
  (66995, 67001),
  (67003, 67004),
  (67072, 67382),
  (67392, 67413),
  (67424, 67431),
  (67456, 67461),
  (67463, 67504),
  (67506, 67514),
  (67584, 67589),
  (67592, 67592),
  (67594, 67637),
  (67639, 67640),
  (67644, 67644),
  (67647, 67669),
  (67680, 67702),
  (67712, 67742),
  (67808, 67826),
  (67828, 67829),
  (67840, 67861),
  (67872, 67897),
  (67968, 68023),
  (68030, 68031),
  (68096, 68096),
  (68112, 68115),
  (68117, 68119),
  (68121, 68149),
  (68192, 68220),
  (68224, 68252),
  (68288, 68295),
  (68297, 68324),
  (68352, 68405),
  (68416, 68437),
  (68448, 68466),
  (68480, 68497),
  (68608, 68680),
  (68736, 68786),
  (68800, 68850),
  (68864, 68899),
  (69248, 69289),
  (69296, 69297),
  (69376, 69404),
  (69415, 69415),
  (69424, 69445),
  (69488, 69505),
  (69552, 69572),
  (69600, 69622),
  (69635, 69687),
  (69745, 69746),
  (69749, 69749),
  (69763, 69807),
  (69840, 69864),
  (69891, 69926),
  (69956, 69956),
  (69959, 69959),
  (69968, 70002),
  (70006, 70006),
  (70019, 70066),
  (70081, 70084),
  (70106, 70106),
  (70108, 70108),
  (70144, 70161),
  (70163, 70187),
  (70272, 70278),
  (70280, 70280),
  (70282, 70285),
  (70287, 70301),
  (70303, 70312),
  (70320, 70366),
  (70405, 70412),
  (70415, 70416),
  (70419, 70440),
  (70442, 70448),
  (70450, 70451),
  (70453, 70457),
  (70461, 70461),
  (70480, 70480),
  (70493, 70497),
  (70656, 70708),
  (70727, 70730),
  (70751, 70753),
  (70784, 70831),
  (70852, 70853),
  (70855, 70855),
  (71040, 71086),
  (71128, 71131),
  (71168, 71215),
  (71236, 71236),
  (71296, 71338),
  (71352, 71352),
  (71424, 71450),
  (71488, 71494),
  (71680, 71723),
  (71840, 71903),
  (71935, 71942),
  (71945, 71945),
  (71948, 71955),
  (71957, 71958),
  (71960, 71983),
  (71999, 71999),
  (72001, 72001),
  (72096, 72103),
  (72106, 72144),
  (72161, 72161),
  (72163, 72163),
  (72192, 72192),
  (72203, 72242),
  (72250, 72250),
  (72272, 72272),
  (72284, 72329),
  (72349, 72349),
  (72368, 72440),
  (72704, 72712),
  (72714, 72750),
  (72768, 72768),
  (72818, 72847),
  (72960, 72966),
  (72968, 72969),
  (72971, 73008),
  (73030, 73030),
  (73056, 73061),
  (73063, 73064),
  (73066, 73097),
  (73112, 73112),
  (73440, 73458),
  (73648, 73648),
  (73728, 74649),
  (74880, 75075),
  (77712, 77808),
  (77824, 78894),
  (82944, 83526),
  (92160, 92728),
  (92736, 92766),
  (92784, 92862),
  (92880, 92909),
  (92928, 92975),
  (92992, 92995),
  (93027, 93047),
  (93053, 93071),
  (93760, 93823),
  (93952, 94026),
  (94032, 94032),
  (94099, 94111),
  (94176, 94177),
  (94179, 94179),
  (94208, 100343),
  (100352, 101589),
  (101632, 101640),
  (110576, 110579),
  (110581, 110587),
  (110589, 110590),
  (110592, 110882),
  (110928, 110930),
  (110948, 110951),
  (110960, 111355),
  (113664, 113770),
  (113776, 113788),
  (113792, 113800),
  (113808, 113817),
  (119808, 119892),
  (119894, 119964),
  (119966, 119967),
  (119970, 119970),
  (119973, 119974),
  (119977, 119980),
  (119982, 119993),
  (119995, 119995),
  (119997, 120003),
  (120005, 120069),
  (120071, 120074),
  (120077, 120084),
  (120086, 120092),
  (120094, 120121),
  (120123, 120126),
  (120128, 120132),
  (120134, 120134),
  (120138, 120144),
  (120146, 120485),
  (120488, 120512),
  (120514, 120538),
  (120540, 120570),
  (120572, 120596),
  (120598, 120628),
  (120630, 120654),
  (120656, 120686),
  (120688, 120712),
  (120714, 120744),
  (120746, 120770),
  (120772, 120779),
  (122624, 122654),
  (123136, 123180),
  (123191, 123197),
  (123214, 123214),
  (123536, 123565),
  (123584, 123627),
  (124896, 124902),
  (124904, 124907),
  (124909, 124910),
  (124912, 124926),
  (124928, 125124),
  (125184, 125251),
  (125259, 125259),
  (126464, 126467),
  (126469, 126495),
  (126497, 126498),
  (126500, 126500),
  (126503, 126503),
  (126505, 126514),
  (126516, 126519),
  (126521, 126521),
  (126523, 126523),
  (126530, 126530),
  (126535, 126535),
  (126537, 126537),
  (126539, 126539),
  (126541, 126543),
  (126545, 126546),
  (126548, 126548),
  (126551, 126551),
  (126553, 126553),
  (126555, 126555),
  (126557, 126557),
  (126559, 126559),
  (126561, 126562),
  (126564, 126564),
  (126567, 126570),
  (126572, 126578),
  (126580, 126583),
  (126585, 126588),
  (126590, 126590),
  (126592, 126601),
  (126603, 126619),
  (126625, 126627),
  (126629, 126633),
  (126635, 126651),
  (131072, 173791),
  (173824, 177976),
  (177984, 178205),
  (178208, 183969),
  (183984, 191456),
  (194560, 195101),
  (196608, 201546)]

/-- Python `str.isalpha` for one code point: membership in a letter
category (code points above U+10FFFF cannot occur in a Python string). -/
def isAlphaCp (c : Nat) : Bool :=
  alphaRanges.any (fun r => decide (r.1 ≤ c) && decide (c ≤ r.2))

/-- `FinalTransitAgent.detect_language`: count Arabic-block characters and
alphabetic characters; default "en" with no alphabetic characters, else
classify "ar" exactly when the Arabic ratio exceeds 0.3.  The float
division and comparison are modelled exactly over ℚ (they are exact at
every count any claim touches). -/
def detect_language (text : Str) : Str :=
  if (text.filter isAlphaCp).length = 0 then str "en"
  else if (3 : ℚ)/10 < ((text.filter inArabicBlock).length : ℚ)
      / (((text.filter isAlphaCp).length : ℚ)) then str "ar"
  else str "en"

-- ### Dialect normalization (src/transit_agent_final.py, normalize_egyptian_text)

/-- The `egyptian_patterns` replacement table, in dict insertion order. -/

def egyptianPatterns : List (Str × Str) := [
  (str "عايز", str "أريد"),
  (str "عايزة", str "أريد"),
  (str "عاوز", str "أريد"),
  (str "عاوزة", str "أريد"),
  (str "روح", str "اذهب"),
  (str "روحة", str "اذهب"),
  (str "روحه", str "اذهب"),
  (str "إزاي", str "كيف"),
  (str "ازاي", str "كيف"),
  (str "إمتى", str "متى"),
  (str "منين", str "من أين"),
  (str "فين", str "أين"),
  (str "ليه", str "لماذا"),
  (str "المنشية", str "المنشية"),
  (str "منشية", str "المنشية"),
  (str "السيوف", str "السيوف"),
  (str "سيوف", str "السيوف"),
  (str "سيف", str "السيوف")]

/-- `FinalTransitAgent.normalize_egyptian_text`: apply each table entry as
a global substring replacement, in table order. -/
def normalize_egyptian_text (text : Str) : Str :=
  egyptianPatterns.foldl (fun acc kv => replaceAll acc kv.1 kv.2) text

/-- The `destination_map` table of `extract_locations`. -/

def destinationMap : List (Str × Str) := [
  (str "لفيكتوريا", str "فيكتوريا"),
  (str "للمنتزه", str "المنتزه"),
  (str "لسيدي جابر", str "سيدي جابر"),
  (str "للرمل", str "الرمل"),
  (str "للفلكي", str "الفلكي"),
  (str "لسيدي بشر", str "سيدي بشر"),
  (str "لجليم", str "جليم"),
  (str "للسبورتنج", str "السبورتنج"),
  (str "لسموحة", str "سموحة"),
  (str "لكرموز", str "كرموز"),
  (str "للسيوف", str "السيوف"),
  (str "للمنشية", str "المنشية")]

/-- C4 counterexample: the Arabic-Indic digit ٣ (U+0663) lies in the
Arabic block but is not alphabetic, so for the nonempty all-Arabic-block
input "٣" the detector returns "en", not "ar" as claimed. -/
theorem detect_language_counterexample :
    (str "٣" ≠ [] ∧ (∀ c ∈ str "٣", inArabicBlock c = true)) ∧
    detect_language (str "٣") = str "en" ∧ str "en" ≠ str "ar" := by
  with_unfolding_all decide

/-- C4 (amended): (1) every nonempty input of Arabic-block characters at
least one of which is alphabetic yields "ar"; (2) input of ASCII letters
only yields "en"; (3) input with no alphabetic characters (in particular
empty input) yields "en"; (4) otherwise the answer is "ar" exactly when
the ratio of Arabic-block characters to alphabetic characters exceeds
0.3. -/
theorem detect_language_spec (t : Str) :
    ((t ≠ [] ∧ (∀ c ∈ t, inArabicBlock c = true) ∧ (∃ c ∈ t, isAlphaCp c = true)) →
        detect_language t = str "ar") ∧
    ((∀ c ∈ t, (65 ≤ c ∧ c ≤ 90) ∨ (97 ≤ c ∧ c ≤ 122)) → detect_language t = str "en") ∧
    ((t.filter isAlphaCp).length = 0 → detect_language t = str "en") ∧
    ((t.filter isAlphaCp).length ≠ 0 →
      (detect_language t = str "ar" ↔
        (3 : ℚ)/10 < ((t.filter inArabicBlock).length : ℚ)
          / ((t.filter isAlphaCp).length : ℚ))) := by
  refine ⟨?_, ?_, ?_, ?_⟩
  · rintro ⟨hne, hblock, c0, hc0, halpha⟩
    have hT : (t.filter isAlphaCp).length ≠ 0 := by
      have : c0 ∈ t.filter isAlphaCp := List.mem_filter.mpr ⟨hc0, halpha⟩
      have := List.length_pos.mpr (List.ne_nil_of_mem this)
      omega
    have hA : t.filter inArabicBlock = t := List.filter_eq_self.mpr hblock
    have hTA : (t.filter isAlphaCp).length ≤ (t.filter inArabicBlock).length := by
      rw [hA]
      exact List.length_filter_le _ _
    unfold detect_language
    rw [if_neg hT, if_pos ?hcond]
    case hcond =>
      have hTpos : (0 : ℚ) < ((t.filter isAlphaCp).length : ℚ) := by
        exact_mod_cast Nat.pos_of_ne_zero hT
      have h1 : (1 : ℚ) ≤ ((t.filter inArabicBlock).length : ℚ)
          / ((t.filter isAlphaCp).length : ℚ) :=
        (one_le_div hTpos).mpr (by exact_mod_cast hTA)
      linarith
  · intro hascii
    have hA0 : t.filter inArabicBlock = [] := by
      rw [List.filter_eq_nil_iff]
      intro c hc
      rcases hascii c hc with h | h <;> (simp [inArabicBlock]; omega)
    unfold detect_language
    by_cases hT : (t.filter isAlphaCp).length = 0
    · rw [if_pos hT]
    · rw [if_neg hT, if_neg ?hcond]
      case hcond =>
        rw [hA0]
        simp only [List.length_nil, Nat.cast_zero, zero_div]
        norm_num
  · intro hT
    unfold detect_language
    rw [if_pos hT]
  · intro hT
    unfold detect_language
    rw [if_neg hT]
    by_cases hc : (3 : ℚ)/10 < ((t.filter inArabicBlock).length : ℚ)
        / ((t.filter isAlphaCp).length : ℚ)
    · rw [if_pos hc]
      exact iff_of_true rfl hc
    · rw [if_neg hc]
      exact iff_of_false (by with_unfolding_all decide) hc

/-- C4 witness: the amended statement instantiated at the concrete input
"سلام" (all Arabic letters), whose detection is "ar". -/
theorem detect_language_spec_witness :
    ((str "سلام" ≠ [] ∧ (∀ c ∈ str "سلام", inArabicBlock c = true) ∧
        (∃ c ∈ str "سلام", isAlphaCp c = true))) ∧
    detect_language (str "سلام") = str "ar" :=
  ⟨by with_unfolding_all decide,
    (detect_language_spec (str "سلام")).1 (by with_unfolding_all decide)⟩

/-- C3 counterexample: normalization is not idempotent — the entry
منشية → المنشية re-expands on a second pass, because its output contains
the key again. -/
theorem normalize_idempotent_counterexample :
    normalize_egyptian_text (normalize_egyptian_text (str "منشية"))
      ≠ normalize_egyptian_text (str "منشية") := by
  with_unfolding_all decide

theorem foldl_replace_fixed (table : List (Str × Str)) (t : Str)
    (h : ∀ kv ∈ table, kv.1 = kv.2 ∨ strContains t kv.1 = false) :
    table.foldl (fun acc kv => replaceAll acc kv.1 kv.2) t = t := by
  induction table with
  | nil => rfl
  | cons kv rest ih =>
    rw [List.foldl_cons]
    have hstep : replaceAll t kv.1 kv.2 = t := by
      rcases h kv (List.mem_cons_self kv rest) with he | hnc
      · rw [he]
        exact replaceAll_self t kv.2
      · exact replaceAll_of_not_contains t kv.1 kv.2 hnc
    rw [hstep]
    exact ih (fun kv2 hm => h kv2 (List.mem_cons_of_mem _ hm))

/-- C3 (amended): normalization is idempotent on every input whose
normalized form contains none of the replacement keys that differ from
their outputs; in general it is not idempotent (see the counterexample
منشية, whose image المنشية contains the key منشية again). -/
theorem normalize_idempotent_of_stable (s : Str)
    (h : ∀ kv ∈ egyptianPatterns, kv.1 ≠ kv.2 →
        strContains (normalize_egyptian_text s) kv.1 = false) :
    normalize_egyptian_text (normalize_egyptian_text s) = normalize_egyptian_text s := by
  unfold normalize_egyptian_text
  apply foldl_replace_fixed
  intro kv hm
  by_cases he : kv.1 = kv.2
  · exact Or.inl he
  · exact Or.inr (h kv hm he)

/-- C3 witness: the amended statement instantiated at a concrete input
whose normalized form is replacement-free. -/
theorem normalize_idempotent_of_stable_witness :
    (∀ kv ∈ egyptianPatterns, kv.1 ≠ kv.2 →
        strContains (normalize_egyptian_text (str "hello world")) kv.1 = false) ∧
    normalize_egyptian_text (normalize_egyptian_text (str "hello world"))
      = normalize_egyptian_text (str "hello world") :=
  ⟨by with_unfolding_all decide,
    normalize_idempotent_of_stable (str "hello world") (by with_unfolding_all decide)⟩

-- ### Location extraction (src/transit_agent_final.py, extract_locations)

/-- Token of the restricted regular-expression dialect the source's
templates use: literal characters, `\s+`, `\s*`, the lazy capturing group
`(.+?)` and the greedy capturing group `(.+)`. -/
inductive Tok where
  | lit (c : Nat)
  | wsPlus
  | wsStar
  | lazyPlus
  | greedyPlus
deriving DecidableEq, BEq

/-- Literal run of pattern characters. -/
def lits (s : String) : List Tok := (str s).map Tok.lit

/-- Case-insensitive character comparison (`re.IGNORECASE`, ASCII case
folding suffices for this program's alphabet). -/
def charEqIC (p c : Nat) : Bool := lowerChar p == lowerChar c

mutual

/-- Backtracking matcher for a token list against a string, anchored at
the current position, trying alternatives in Python's preference order:
a match may end before the string does; `\s+`/`\s*` are greedy; `(.+?)`
is lazy (shortest capture first); `(.+)` is greedy (longest capture
first); `.` matches any character except newline.  Captures are
accumulated in reverse.  Every recursive call decreases the measure
2·|s| + |toks|, so the fuel passed by `reMatch` is never exhausted. -/
def matchToks : Nat → List Tok → Str → List Str → Option (List Str)
  | 0, _, _, _ => none
  | fuel+1, toks, s, caps =>
    match toks with
    | [] => some caps.reverse
    | Tok.lit p :: ts =>
      match s with
      | [] => none
      | c :: s2 => if charEqIC p c then matchToks fuel ts s2 caps else none
    | Tok.wsPlus :: ts =>
      match s with
      | [] => none
      | c :: s2 => if isWs c then matchToks fuel (Tok.wsStar :: ts) s2 caps else none
    | Tok.wsStar :: ts =>
      match s with
      | [] => matchToks fuel ts [] caps
      | c :: s2 =>
        if isWs c then
          match matchToks fuel (Tok.wsStar :: ts) s2 caps with
          | some r => some r
          | none => matchToks fuel ts s caps
        else matchToks fuel ts s caps
    | Tok.lazyPlus :: ts =>
      match s with
      | [] => none
      | c :: s2 => if c != 10 then lazyAcc fuel ts s2 [c] caps else none
    | Tok.greedyPlus :: ts =>
      match s with
      | [] => none
      | c :: s2 => if c != 10 then greedyAcc fuel ts s2 [c] caps else none

/-- Lazy group continuation: try the shortest capture first, extending one
character at a time on failure. -/
def lazyAcc : Nat → List Tok → Str → Str → List Str → Option (List Str)
  | 0, _, _, _, _ => none
  | fuel+1, ts, rem, acc, caps =>
    match matchToks fuel ts rem (acc.reverse :: caps) with
    | some r => some r
    | none =>
      match rem with
      | [] => none
      | c :: rem2 => if c != 10 then lazyAcc fuel ts rem2 (c :: acc) caps else none

/-- Greedy group continuation: try the longest capture first, backing off
one character at a time on failure. -/
def greedyAcc : Nat → List Tok → Str → Str → List Str → Option (List Str)
  | 0, _, _, _, _ => none
  | fuel+1, ts, rem, acc, caps =>
    match rem with
    | [] => matchToks fuel ts [] (acc.reverse :: caps)
    | c :: rem2 =>
      match (if c != 10 then greedyAcc fuel ts rem2 (c :: acc) caps else none) with
      | some r => some r
      | none => matchToks fuel ts rem (acc.reverse :: caps)

end

/-- Match a whole pattern at the current position with sufficient fuel. -/
def reMatch (toks : List Tok) (s : Str) : Option (List Str) :=
  matchToks (2 * s.length + toks.length + 2) toks s []

/-- Python `re.search`: try each start position left to right, returning
the captures of the leftmost match. -/
def reSearch (toks : List Tok) : Str → Option (List Str)
  | [] => reMatch toks []
  | c :: rest =>
    match reMatch toks (c :: rest) with
    | some caps => some caps
    | none => reSearch toks rest

/-- Number of capturing groups in a pattern (`len(match.groups())` in the
source counts the pattern's groups). -/
def countGroups (toks : List Tok) : Nat :=
  toks.countP (fun t => decide (t = Tok.lazyPlus) || decide (t = Tok.greedyPlus))

/-- The source's ordered template list; each entry carries the raw regex
source text (used by the `key in pattern` check of the destination-map
scan) and its tokenization. -/
def patterns : List (Str × List Tok) := [
  (str "أريد\\s+الذهاب\\s+من\\s+(.+?)\\s+إلى\\s+(.+)", lits "أريد" ++ [Tok.wsPlus] ++ lits "الذهاب" ++ [Tok.wsPlus] ++ lits "من" ++ [Tok.wsPlus] ++ [Tok.lazyPlus] ++ [Tok.wsPlus] ++ lits "إلى" ++ [Tok.wsPlus] ++ [Tok.greedyPlus]),
  (str "كيف\\s+أصل\\s+من\\s+(.+?)\\s+إلى\\s+(.+)", lits "كيف" ++ [Tok.wsPlus] ++ lits "أصل" ++ [Tok.wsPlus] ++ lits "من" ++ [Tok.wsPlus] ++ [Tok.lazyPlus] ++ [Tok.wsPlus] ++ lits "إلى" ++ [Tok.wsPlus] ++ [Tok.greedyPlus]),
  (str "من\\s+(.+?)\\s+إلى\\s+(.+)", lits "من" ++ [Tok.wsPlus] ++ [Tok.lazyPlus] ++ [Tok.wsPlus] ++ lits "إلى" ++ [Tok.wsPlus] ++ [Tok.greedyPlus]),
  (str "من\\s+(.+?)\\s+لـ\\s*(.+)", lits "من" ++ [Tok.wsPlus] ++ [Tok.lazyPlus] ++ [Tok.wsPlus] ++ lits "لـ" ++ [Tok.wsStar] ++ [Tok.greedyPlus]),
  (str "عايز\\s+أروح\\s+من\\s+(.+?)\\s+إلى\\s+(.+)", lits "عايز" ++ [Tok.wsPlus] ++ lits "أروح" ++ [Tok.wsPlus] ++ lits "من" ++ [Tok.wsPlus] ++ [Tok.lazyPlus] ++ [Tok.wsPlus] ++ lits "إلى" ++ [Tok.wsPlus] ++ [Tok.greedyPlus]),
  (str "عايزة\\s+أروح\\s+من\\s+(.+?)\\s+إلى\\s+(.+)", lits "عايزة" ++ [Tok.wsPlus] ++ lits "أروح" ++ [Tok.wsPlus] ++ lits "من" ++ [Tok.wsPlus] ++ [Tok.lazyPlus] ++ [Tok.wsPlus] ++ lits "إلى" ++ [Tok.wsPlus] ++ [Tok.greedyPlus]),
  (str "عاوز\\s+أروح\\s+من\\s+(.+?)\\s+إلى\\s+(.+)", lits "عاوز" ++ [Tok.wsPlus] ++ lits "أروح" ++ [Tok.wsPlus] ++ lits "من" ++ [Tok.wsPlus] ++ [Tok.lazyPlus] ++ [Tok.wsPlus] ++ lits "إلى" ++ [Tok.wsPlus] ++ [Tok.greedyPlus]),
  (str "عاوزة\\s+أروح\\s+من\\s+(.+?)\\s+إلى\\s+(.+)", lits "عاوزة" ++ [Tok.wsPlus] ++ lits "أروح" ++ [Tok.wsPlus] ++ lits "من" ++ [Tok.wsPlus] ++ [Tok.lazyPlus] ++ [Tok.wsPlus] ++ lits "إلى" ++ [Tok.wsPlus] ++ [Tok.greedyPlus]),
  (str "إزاي\\s+أروح\\s+من\\s+(.+?)\\s+إلى\\s+(.+)", lits "إزاي" ++ [Tok.wsPlus] ++ lits "أروح" ++ [Tok.wsPlus] ++ lits "من" ++ [Tok.wsPlus] ++ [Tok.lazyPlus] ++ [Tok.wsPlus] ++ lits "إلى" ++ [Tok.wsPlus] ++ [Tok.greedyPlus]),
  (str "ازاي\\s+أروح\\s+من\\s+(.+?)\\s+لـ\\s*(.+)", lits "ازاي" ++ [Tok.wsPlus] ++ lits "أروح" ++ [Tok.wsPlus] ++ lits "من" ++ [Tok.wsPlus] ++ [Tok.lazyPlus] ++ [Tok.wsPlus] ++ lits "لـ" ++ [Tok.wsStar] ++ [Tok.greedyPlus]),
  (str "how\\s+do\\s+i\\s+go\\s+from\\s+(.+?)\\s+to\\s+(.+)", lits "how" ++ [Tok.wsPlus] ++ lits "do" ++ [Tok.wsPlus] ++ lits "i" ++ [Tok.wsPlus] ++ lits "go" ++ [Tok.wsPlus] ++ lits "from" ++ [Tok.wsPlus] ++ [Tok.lazyPlus] ++ [Tok.wsPlus] ++ lits "to" ++ [Tok.wsPlus] ++ [Tok.greedyPlus]),
  (str "route\\s+from\\s+(.+?)\\s+to\\s+(.+)", lits "route" ++ [Tok.wsPlus] ++ lits "from" ++ [Tok.wsPlus] ++ [Tok.lazyPlus] ++ [Tok.wsPlus] ++ lits "to" ++ [Tok.wsPlus] ++ [Tok.greedyPlus]),
  (str "from\\s+(.+?)\\s+to\\s+(.+)", lits "from" ++ [Tok.wsPlus] ++ [Tok.lazyPlus] ++ [Tok.wsPlus] ++ lits "to" ++ [Tok.wsPlus] ++ [Tok.greedyPlus]),
  (str "i\\s+want\\s+to\\s+go\\s+from\\s+(.+?)\\s+to\\s+(.+)", lits "i" ++ [Tok.wsPlus] ++ lits "want" ++ [Tok.wsPlus] ++ lits "to" ++ [Tok.wsPlus] ++ lits "go" ++ [Tok.wsPlus] ++ lits "from" ++ [Tok.wsPlus] ++ [Tok.lazyPlus] ++ [Tok.wsPlus] ++ lits "to" ++ [Tok.wsPlus] ++ [Tok.greedyPlus]),
  (str "travel\\s+from\\s+(.+?)\\s+to\\s+(.+)", lits "travel" ++ [Tok.wsPlus] ++ lits "from" ++ [Tok.wsPlus] ++ [Tok.lazyPlus] ++ [Tok.wsPlus] ++ lits "to" ++ [Tok.wsPlus] ++ [Tok.greedyPlus]),
  (str "من\\s+(.+?)\\s+لفيكتوريا", lits "من" ++ [Tok.wsPlus] ++ [Tok.lazyPlus] ++ [Tok.wsPlus] ++ lits "لفيكتوريا"),
  (str "من\\s+(.+?)\\s+للمنتزه", lits "من" ++ [Tok.wsPlus] ++ [Tok.lazyPlus] ++ [Tok.wsPlus] ++ lits "للمنتزه"),
  (str "من\\s+(.+?)\\s+لسيدي\\s+جابر", lits "من" ++ [Tok.wsPlus] ++ [Tok.lazyPlus] ++ [Tok.wsPlus] ++ lits "لسيدي" ++ [Tok.wsPlus] ++ lits "جابر"),
  (str "من\\s+(.+?)\\s+للرمل", lits "من" ++ [Tok.wsPlus] ++ [Tok.lazyPlus] ++ [Tok.wsPlus] ++ lits "للرمل"),
  (str "من\\s+(.+?)\\s+للفلكي", lits "من" ++ [Tok.wsPlus] ++ [Tok.lazyPlus] ++ [Tok.wsPlus] ++ lits "للفلكي"),
  (str "من\\s+(.+?)\\s+لسيدي\\s+بشر", lits "من" ++ [Tok.wsPlus] ++ [Tok.lazyPlus] ++ [Tok.wsPlus] ++ lits "لسيدي" ++ [Tok.wsPlus] ++ lits "بشر"),
  (str "من\\s+(.+?)\\s+لجليم", lits "من" ++ [Tok.wsPlus] ++ [Tok.lazyPlus] ++ [Tok.wsPlus] ++ lits "لجليم"),
  (str "من\\s+(.+?)\\s+للسبورتنج", lits "من" ++ [Tok.wsPlus] ++ [Tok.lazyPlus] ++ [Tok.wsPlus] ++ lits "للسبورتنج"),
  (str "من\\s+(.+?)\\s+لسموحة", lits "من" ++ [Tok.wsPlus] ++ [Tok.lazyPlus] ++ [Tok.wsPlus] ++ lits "لسموحة"),
  (str "من\\s+(.+?)\\s+لكرموز", lits "من" ++ [Tok.wsPlus] ++ [Tok.lazyPlus] ++ [Tok.wsPlus] ++ lits "لكرموز"),
  (str "من\\s+(.+?)\\s+للسيوف", lits "من" ++ [Tok.wsPlus] ++ [Tok.lazyPlus] ++ [Tok.wsPlus] ++ lits "للسيوف"),
  (str "من\\s+(.+?)\\s+للمنشية", lits "من" ++ [Tok.wsPlus] ++ [Tok.lazyPlus] ++ [Tok.wsPlus] ++ lits "للمنشية")]

/-- The template loop of `extract_locations`: first matching template
wins; on a match of a two-group template return both trimmed captures; on
a match of a one-group template return the capture plus the mapped
destination of the first `destination_map` key occurring in the template
source text, or fall through to the next template when no key occurs. -/
def tryPatterns : List (Str × List Tok) → Str → Option (Str × Str)
  | [], _ => none
  | p :: ps, q =>
    match reSearch p.2 q with
    | some (g1 :: g2 :: _) => some (strip g1, strip g2)
    | some [g1] =>
      match destinationMap.find? (fun kv => strContains p.1 kv.1) with
      | some kv => some (strip g1, kv.2)
      | none => tryPatterns ps q
    | _ => tryPatterns ps q

/-- `FinalTransitAgent.extract_locations`: normalize the dialect,
lowercase, try the templates in order, then fall back to collecting every
(alias, stop) pair whose lowercased alias occurs in the query and
returning the first two alias texts. -/
def extract_locations (query : Str) : Option Str × Option Str :=
  match tryPatterns patterns (strLower (normalize_egyptian_text query)) with
  | some (f, t) => (some f, some t)
  | none =>
    match stops.flatMap (fun stop =>
        stop.aliases.filterMap (fun a =>
          if strContains (strLower (normalize_egyptian_text query)) (strLower a)
          then some (a, stop) else none)) with
    | m1 :: m2 :: _ => (some m1.1, some m2.1)
    | _ => (none, none)

/-- C6 counterexample: for the query below, the template
من (.+?) لسيدي جابر matches with capture القاهرة and the template
من (.+?) لسيدي بشر matches with a different capture, and neither
template's source text contains a destination-map key (the keys carry a
literal space where the templates carry `\s+`); were the claim true,
extract would have to return two different (from, None) pairs for the
same query — so extract does not return (from_loc, None) in this
situation. -/
theorem extract_single_capture_counterexample :
    ¬ (∀ (q : Str) (p : Str × List Tok) (g : Str), p ∈ patterns →
        countGroups p.2 = 1 →
        reSearch p.2 (strLower (normalize_egyptian_text q)) = some [g] →
        (∀ kv ∈ destinationMap, strContains p.1 kv.1 = false) →
        extract_locations q = (some (strip g), none)) := by
  intro H
  have hp17 : (17 : Nat) < patterns.length := by with_unfolding_all decide
  have hp20 : (20 : Nat) < patterns.length := by with_unfolding_all decide
  have h1 := H (str "من القاهرة لسيدي جابر من المطار لسيدي بشر")
    (patterns.get ⟨17, hp17⟩) (str "القاهرة")
    (List.get_mem patterns 17 hp17)
    (by show countGroups (patterns.get ⟨17, by with_unfolding_all decide⟩).2 = 1
        with_unfolding_all decide)
    (by show reSearch (patterns.get ⟨17, by with_unfolding_all decide⟩).2 _ = _
        with_unfolding_all decide)
    (by show ∀ kv ∈ destinationMap,
          strContains (patterns.get ⟨17, by with_unfolding_all decide⟩).1 kv.1 = false
        with_unfolding_all decide)
  have h2 := H (str "من القاهرة لسيدي جابر من المطار لسيدي بشر")
    (patterns.get ⟨20, hp20⟩) (str "القاهرة لسيدي جابر من المطار")
    (List.get_mem patterns 20 hp20)
    (by show countGroups (patterns.get ⟨20, by with_unfolding_all decide⟩).2 = 1
        with_unfolding_all decide)
    (by show reSearch (patterns.get ⟨20, by with_unfolding_all decide⟩).2 _ = _
        with_unfolding_all decide)
    (by show ∀ kv ∈ destinationMap,
          strContains (patterns.get ⟨20, by with_unfolding_all decide⟩).1 kv.1 = false
        with_unfolding_all decide)
  have heq := congrArg Prod.fst (h1.symm.trans h2)
  have : strip (str "القاهرة") = strip (str "القاهرة لسيدي جابر من المطار") :=
    Option.some.inj heq
  exact absurd this (by with_unfolding_all decide)

/-- C6 (amended): when a single-capture template matches the query but no
destination-map key occurs in the template's source text, that template
yields no result — the template loop falls through to the remaining
templates (and ultimately to the fuzzy alias fallback), rather than
returning (from_loc, None). -/
theorem single_capture_no_map_entry_falls_through (p : Str × List Tok)
    (ps : List (Str × List Tok)) (q g : Str)
    (hm : reSearch p.2 q = some [g])
    (hmap : ∀ kv ∈ destinationMap, strContains p.1 kv.1 = false) :
    tryPatterns (p :: ps) q = tryPatterns ps q := by
  have hfind : destinationMap.find? (fun kv => strContains p.1 kv.1) = none := by
    rw [List.find?_eq_none]
    intro kv hkv
    simp [hmap kv hkv]
  simp only [tryPatterns, hm, hfind]

/-- C6 witness: the amended statement instantiated at the concrete
سيدي جابر template and query. -/
theorem single_capture_no_map_entry_falls_through_witness :
    tryPatterns [(patterns.get ⟨17, by with_unfolding_all decide⟩)]
        (strLower (normalize_egyptian_text (str "من القاهرة لسيدي جابر"))) =
      tryPatterns []
        (strLower (normalize_egyptian_text (str "من القاهرة لسيدي جابر"))) :=
  single_capture_no_map_entry_falls_through _ _ _ (str "القاهرة")
    (by with_unfolding_all decide)
    (by with_unfolding_all decide)

-- ### Planner client (src/otp_client.py)

/-- JSON values as delivered by the Planner.  Python booleans and numbers
are separate; numbers are exact rationals (every number any claim touches
is exactly representable). -/
inductive Json where
  | null
  | bool (b : Bool)
  | num (q : ℚ)
  | str (s : Str)
  | arr (elems : List Json)
  | obj (fields : List (Str × Json))

/-- Python truthiness of a JSON value. -/
def jtruthy : Json → Bool
  | .null => false
  | .bool b => b
  | .num q => !(q == 0)
  | .str s => !s.isEmpty
  | .arr l => !l.isEmpty
  | .obj l => !l.isEmpty

/-- Python `d.get(key, default)`: requires a dict (AttributeError on
anything else); first binding wins (dict keys are unique). -/
def pyGet (j : Json) (k : Str) (dflt : Json) : Except Str Json :=
  match j with
  | .obj fields =>
    .ok (((fields.find? (fun kv => kv.1 == k)).map (fun kv => kv.2)).getD dflt)
  | _ => .error (str "AttributeError")

/-- Total field access with null default, used on the specification side
(only compared against code paths where the value is known to be a
dict). -/
def jGetD (j : Json) (k : Str) : Json :=
  match j with
  | .obj fields => ((fields.find? (fun kv => kv.1 == k)).map (fun kv => kv.2)).getD Json.null
  | _ => Json.null

/-- Python `(v or 0) / c` numerator: a falsy value contributes 0, `True`
counts as 1, a number is itself, and any truthy non-number raises
TypeError when divided. -/
def orZeroNum : Json → Except Str ℚ
  | .null => .ok 0
  | .bool b => .ok (if b then 1 else 0)
  | .num q => .ok q
  | .str s => if s.isEmpty then .ok 0 else .error (str "TypeError")
  | .arr l => if l.isEmpty then .ok 0 else .error (str "TypeError")
  | .obj l => if l.isEmpty then .ok 0 else .error (str "TypeError")

/-- A JSON value divided directly (no `or 0`): numbers and booleans are
numeric, everything else raises TypeError. -/
def asNum : Json → Except Str ℚ
  | .bool b => .ok (if b then 1 else 0)
  | .num q => .ok q
  | _ => .error (str "TypeError")

/-- Python `or` on JSON values: the left value if truthy, else the right
value. -/
def pyOrJ (a b : Json) : Json := if jtruthy a then a else b

/-- Iterating the `legs` value: a list yields its elements; an empty
string or empty dict yields no elements (and therefore no error); any
other non-list raises by its first element (`.get` on a non-dict) or at
the `for` itself — modelled as the net effect, an error. -/
def asLegsList : Json → Except Str (List Json)
  | .arr l => .ok l
  | .str s => if s.isEmpty then .ok [] else .error (str "TypeError")
  | .obj l => if l.isEmpty then .ok [] else .error (str "TypeError")
  | _ => .error (str "TypeError")

/-- The transit mode set of `_parse_itinerary`. -/
def transitModes : List Str := [str "BUS", str "TRAM", str "RAIL", str "SUBWAY", str "FERRY"]

/-- The transit-leg test
`leg.get("transitLeg") or leg.get("mode") in {"BUS","TRAM","RAIL","SUBWAY","FERRY"}`;
testing set membership of an unhashable value (list or dict) raises
TypeError in Python. -/
def isTransitLegE (leg : Json) : Except Str Bool :=
  match pyGet leg (str "transitLeg") Json.null with
  | .error e => .error e
  | .ok tl =>
    if jtruthy tl then .ok true
    else
      match pyGet leg (str "mode") Json.null with
      | .error e => .error e
      | .ok (Json.str s) => .ok (transitModes.contains s)
      | .ok (Json.arr _) => .error (str "TypeError")
      | .ok (Json.obj _) => .error (str "TypeError")
      | .ok _ => .ok false

/-- One parsed leg, mirroring the `OTPLeg` dataclass; display fields keep
their raw JSON values (the dataclass is untyped at runtime). -/
structure OTPLeg where
  mode : Json
  from_name : Json
  to_name : Json
  duration_min : ℤ
  distance_km : ℚ
  route : Json
  route_short_name : Json
  route_long_name : Json
  headsign : Json
  agency_name : Json
  route_type : Json

/-- One parsed itinerary, mirroring the `OTPItinerary` dataclass. -/
structure OTPItinerary where
  total_duration_min : ℤ
  total_distance_km : ℚ
  total_walking_time_min : ℤ
  transfers : ℤ
  legs : List OTPLeg

/-- Per-leg parsing in `_parse_itinerary` (source lines 143-160). -/
def parseLeg (leg : Json) : Except Str OTPLeg :=
  match pyGet leg (str "duration") (Json.num 0) with
  | .error e => .error e
  | .ok dur =>
  match orZeroNum dur with
  | .error e => .error e
  | .ok durQ =>
  match pyGet leg (str "distance") (Json.num 0) with
  | .error e => .error e
  | .ok dist =>
  match orZeroNum dist with
  | .error e => .error e
  | .ok distQ =>
  match pyGet leg (str "mode") (Json.str (str "WALK")) with
  | .error e => .error e
  | .ok mode =>
  match pyGet leg (str "from") (Json.obj []) with
  | .error e => .error e
  | .ok fromV =>
  match pyGet fromV (str "name") (Json.str (str "Unknown")) with
  | .error e => .error e
  | .ok fromName =>
  match pyGet leg (str "to") (Json.obj []) with
  | .error e => .error e
  | .ok toV =>
  match pyGet toV (str "name") (Json.str (str "Unknown")) with
  | .error e => .error e
  | .ok toName =>
  match pyGet leg (str "route") Json.null with
  | .error e => .error e
  | .ok route =>
  match pyGet leg (str "routeShortName") Json.null with
  | .error e => .error e
  | .ok rsn =>
  match pyGet leg (str "routeLongName") Json.null with
  | .error e => .error e
  | .ok rln =>
  match pyGet leg (str "headsign") Json.null with
  | .error e => .error e
  | .ok headsign =>
  match pyGet leg (str "agencyName") Json.null with
  | .error e => .error e
  | .ok agency =>
  match pyGet leg (str "routeType") Json.null with
  | .error e => .error e
  | .ok rtype =>
    .ok { mode := mode, from_name := fromName, to_name := toName,
          duration_min := pyRound (durQ / 60), distance_km := distQ / 1000,
          route := pyOrJ (pyOrJ route rsn) rln,
          route_short_name := rsn, route_long_name := rln,
          headsign := headsign, agency_name := agency, route_type := rtype }

/-- Legs extraction (source line 127 plus the iteration at line 131). -/
def getLegsE (itin : Json) : Except Str (List Json) :=
  match pyGet itin (str "legs") (Json.arr []) with
  | .error e => .error e
  | .ok v => asLegsList v

/-- Total duration in minutes: `int(round((itinerary.get("duration", 0) or 0) / 60))`. -/
def getDurationMinE (itin : Json) : Except Str ℤ :=
  match pyGet itin (str "duration") (Json.num 0) with
  | .error e => .error e
  | .ok v =>
    match orZeroNum v with
    | .error e => .error e
    | .ok q => .ok (pyRound (q / 60))

/-- Distance sum over legs: `sum((leg.get("distance") or 0) for leg in legs)`. -/
def sumLegDistancesE (legs : List Json) : Except Str ℚ :=
  match legs.mapM (fun leg =>
      (match pyGet leg (str "distance") Json.null with
      | .error e => .error e
      | .ok d => orZeroNum d : Except Str ℚ)) with
  | .error e => .error e
  | .ok ds => .ok ds.sum

/-- Walking seconds: prefer a present `walkTime` (even a falsy one), else
sum the durations of WALK-mode legs. -/
def walkSecondsE (itin : Json) (legs : List Json) : Except Str ℚ :=
  match pyGet itin (str "walkTime") Json.null with
  | .error e => .error e
  | .ok Json.null =>
    match legs.mapM (fun leg =>
        (match pyGet leg (str "mode") Json.null with
        | .error e => .error e
        | .ok (Json.str ms) =>
          if ms == str "WALK" then
            match pyGet leg (str "duration") (Json.num 0) with
            | .error e => .error e
            | .ok d => orZeroNum d
          else .ok 0
        | .ok _ => .ok 0 : Except Str ℚ)) with
    | .error e => .error e
    | .ok ws => .ok ws.sum
  | .ok w => asNum w

/-- The number of transit legs
(`len([leg for leg in legs if transit-test])`). -/
def transitCountE : List Json → Except Str Nat
  | [] => .ok 0
  | leg :: rest =>
    match isTransitLegE leg with
    | .error e => .error e
    | .ok b =>
      match transitCountE rest with
      | .error e => .error e
      | .ok n => .ok (if b then n + 1 else n)

/-- `AsyncOTPClient._parse_itinerary`: normalize one raw itinerary. -/
def parse_itinerary (itinerary : Json) : Except Str OTPItinerary :=
  match getLegsE itinerary with
  | .error e => .error e
  | .ok legs =>
  match getDurationMinE itinerary with
  | .error e => .error e
  | .ok dmin =>
  match sumLegDistancesE legs with
  | .error e => .error e
  | .ok dist =>
  match walkSecondsE itinerary legs with
  | .error e => .error e
  | .ok wsec =>
  match transitCountE legs with
  | .error e => .error e
  | .ok tcount =>
  match legs.mapM parseLeg with
  | .error e => .error e
  | .ok parsed =>
    .ok { total_duration_min := dmin,
          total_distance_km := pyRound2 (dist / 1000),
          total_walking_time_min := pyRound (wsec / 60),
          transfers := max 0 ((tcount : ℤ) - 1),
          legs := parsed }

/-- Transit-leg test in the claim's words: explicitly flagged as a
transit leg, or mode one of BUS/TRAM/RAIL/SUBWAY/FERRY. -/
def specIsTransit (leg : Json) : Bool :=
  jtruthy (jGetD leg (str "transitLeg")) ||
  (match jGetD leg (str "mode") with
   | Json.str s => transitModes.contains s
   | _ => false)

/-- Number of transit legs in the claim's words. -/
def specTransitCount (legs : List Json) : Nat := legs.countP specIsTransit

/-- The legs of a raw itinerary (total; collapses the error cases, which
cannot occur when `parse_itinerary` succeeds, to the empty list). -/
def specLegs (itin : Json) : List Json :=
  match getLegsE itin with
  | .ok l => l
  | .error _ => []

theorem isTransitLegE_ok {leg : Json} {b : Bool}
    (h : isTransitLegE leg = .ok b) : b = specIsTransit leg := by
  cases leg with
  | obj fs =>
    simp only [isTransitLegE, pyGet] at h
    simp only [specIsTransit, jGetD]
    by_cases ht : jtruthy (((List.find? (fun kv => kv.1 == str "transitLeg") fs).map
        (fun kv => kv.2)).getD Json.null) = true
    · rw [if_pos ht] at h
      rw [ht]
      simpa using (Except.ok.inj h).symm
    · rw [if_neg ht] at h
      rw [Bool.not_eq_true] at ht
      rw [ht]
      cases hm : ((List.find? (fun kv => kv.1 == str "mode") fs).map
          (fun kv => kv.2)).getD Json.null with
      | str s =>
        rw [hm] at h
        simpa using (Except.ok.inj h).symm
      | arr l => rw [hm] at h; exact absurd h (by simp)
      | obj l => rw [hm] at h; exact absurd h (by simp)
      | null => rw [hm] at h; simpa using (Except.ok.inj h).symm
      | bool b2 => rw [hm] at h; simpa using (Except.ok.inj h).symm
      | num q => rw [hm] at h; simpa using (Except.ok.inj h).symm
  | null => exact absurd h (by simp [isTransitLegE, pyGet])
  | bool b2 => exact absurd h (by simp [isTransitLegE, pyGet])
  | num q => exact absurd h (by simp [isTransitLegE, pyGet])
  | str s => exact absurd h (by simp [isTransitLegE, pyGet])
  | arr l => exact absurd h (by simp [isTransitLegE, pyGet])

theorem transitCountE_ok : ∀ {legs : List Json} {n : Nat},
    transitCountE legs = .ok n → n = specTransitCount legs := by
  intro legs
  induction legs with
  | nil =>
    intro n h
    have : (0 : Nat) = n := Except.ok.inj h
    simp [specTransitCount, ← this]
  | cons leg rest ih =>
    intro n h
    unfold transitCountE at h
    cases ht : isTransitLegE leg with
    | error e => rw [ht] at h; exact absurd h (by simp)
    | ok b =>
      rw [ht] at h
      cases hr : transitCountE rest with
      | error e => rw [hr] at h; exact absurd h (by simp)
      | ok m =>
        rw [hr] at h
        have hn : (if b then m + 1 else m) = n := Except.ok.inj h
        have hb := isTransitLegE_ok ht
        have hm := ih hr
        subst hb hm
        rw [← hn]
        simp only [specTransitCount, List.countP_cons]
        cases hs : specIsTransit leg <;> simp [hs]

/-- C5: for every raw itinerary that parses, the normalized
transfer count equals max(0, n − 1) where n is the number of legs that
are explicitly flagged as transit legs or whose mode is one of
BUS/TRAM/RAIL/SUBWAY/FERRY; in particular, with exactly 3 such transit
legs (and any number of WALK legs) the transfer count is 2. -/
theorem transfer_count_spec (itin : Json) (r : OTPItinerary)
    (h : parse_itinerary itin = .ok r) :
    r.transfers = max 0 ((specTransitCount (specLegs itin) : ℤ) - 1) ∧
    (specTransitCount (specLegs itin) = 3 → r.transfers = 2) := by
  unfold parse_itinerary at h
  split at h
  · exact absurd h (by simp)
  next legs hlegs =>
  split at h
  · exact absurd h (by simp)
  next dmin hdmin =>
  split at h
  · exact absurd h (by simp)
  next dist hdist =>
  split at h
  · exact absurd h (by simp)
  next wsec hwsec =>
  split at h
  · exact absurd h (by simp)
  next tcount htc =>
  split at h
  · exact absurd h (by simp)
  next parsed hpl =>
  have hr := Except.ok.inj h
  have hspecLegs : specLegs itin = legs := by
    unfold specLegs
    rw [hlegs]
  have hcount := transitCountE_ok htc
  have htr : r.transfers = max 0 ((tcount : ℤ) - 1) := by
    rw [← hr]
  rw [hspecLegs, ← hcount]
  refine ⟨htr, ?_⟩
  intro h3
  rw [h3] at htr
  rw [htr]
  rfl

/-- The C2 fixture: raw Planner itinerary with total duration 1800
seconds, no itinerary-level walk-time field, and two legs — WALK
300 s / 400 m and BUS 1500 s / 5000 m. -/
def fixtureItinerary : Json :=
  Json.obj [
    (str "duration", Json.num 1800),
    (str "legs", Json.arr [
      Json.obj [(str "mode", Json.str (str "WALK")),
                (str "duration", Json.num 300),
                (str "distance", Json.num 400)],
      Json.obj [(str "mode", Json.str (str "BUS")),
                (str "duration", Json.num 1500),
                (str "distance", Json.num 5000)]])]

/-- C2: normalizing the fixture yields total_duration_minutes = 30,
total_distance_km = 5.40, total_walking_minutes = 5 and
transfer_count = 0. -/
theorem fixture_normalization :
    (parse_itinerary fixtureItinerary).map (fun it =>
        (it.total_duration_min, it.total_distance_km,
         it.total_walking_time_min, it.transfers))
      = Except.ok ((30 : ℤ), (27 : ℚ)/5, (5 : ℤ), (0 : ℤ))
    ∧ (27 : ℚ)/5 = 5.40 := by
  constructor
  · with_unfolding_all rfl
  · with_unfolding_all rfl

/-- An itinerary with three transit legs (BUS, TRAM, RAIL) and two WALK
legs, used to instantiate C5 concretely. -/
def fixtureThreeTransit : Json :=
  Json.obj [
    (str "duration", Json.num 3600),
    (str "legs", Json.arr [
      Json.obj [(str "mode", Json.str (str "WALK")),
                (str "duration", Json.num 60), (str "distance", Json.num 100)],
      Json.obj [(str "mode", Json.str (str "BUS")),
                (str "duration", Json.num 600), (str "distance", Json.num 1000)],
      Json.obj [(str "mode", Json.str (str "WALK")),
                (str "duration", Json.num 120), (str "distance", Json.num 200)],
      Json.obj [(str "mode", Json.str (str "TRAM")),
                (str "duration", Json.num 300), (str "distance", Json.num 2000)],
      Json.obj [(str "mode", Json.str (str "RAIL")),
                (str "duration", Json.num 600), (str "distance", Json.num 3000)]])]

/-- C5 witness: the fixture with three transit legs parses and its
transfer count is 2. -/
theorem transfer_count_spec_witness :
    ∃ r, parse_itinerary fixtureThreeTransit = Except.ok r ∧ r.transfers = 2 := by
  cases hp : parse_itinerary fixtureThreeTransit with
  | error e =>
    have hmap : (parse_itinerary fixtureThreeTransit).map (fun it => it.transfers)
        = Except.ok (2 : ℤ) := by with_unfolding_all rfl
    rw [hp] at hmap
    exact absurd hmap (by simp [Except.map])
  | ok r =>
    refine ⟨r, rfl, ?_⟩
    have h3 : specTransitCount (specLegs fixtureThreeTransit) = 3 := by
      with_unfolding_all rfl
    exact (transfer_count_spec fixtureThreeTransit r hp).2 h3

/-- Python `"error" in data` for the decoded payload: key membership for
a dict, element equality for a list, substring for a string, and a
TypeError for anything else. -/
def jsonHasError : Json → Except Str Bool
  | .obj fs => .ok (fs.any (fun kv => kv.1 == str "error"))
  | .arr l => .ok (l.any (fun v => match v with
      | Json.str s => s == str "error"
      | _ => false))
  | .str s => .ok (strContains s (str "error"))
  | _ => .error (str "TypeError")

/-- Modelled `str()` rendering used for `str(data.get("error"))`; claims
observe only presence and truthiness of the resulting message, so
containers render as fixed placeholders (Python's actual repr of a
non-empty container is likewise a non-empty string). -/
def pyStr : Json → Json
  | .null => Json.str (str "None")
  | .bool b => Json.str (str (if b then "True" else "False"))
  | .num _ => Json.str (str "<number>")
  | .str s => Json.str s
  | .arr _ => Json.str (str "<list>")
  | .obj _ => Json.str (str "<dict>")

/-- Iterating the truthy `itineraries` value into the parse loop: a list
yields its elements; any truthy non-list raises by the time its
"elements" reach `_parse_itinerary` — modelled as the net effect, an
error. -/
def asItinList : Json → Except Str (List Json)
  | .arr l => .ok l
  | _ => .error (str "TypeError")

/-- The outcome of the HTTP exchange in `plan_trip`, as seen by the
response-handling code: a transport error (`aiohttp.ClientError`), any
other exception (e.g. a JSON-decoding failure), or a decoded response
with its status code. -/
inductive FetchOutcome where
  | clientError (msg : Str)
  | otherError (msg : Str)
  | response (status : Nat) (data : Json)

/-- The dict `plan_trip` returns:
`{success, error?, itineraries?, raw?}`. -/
structure PlanResult where
  success : Bool
  error : Option Json
  itineraries : Option (List OTPItinerary)
  raw : Option Json

/-- The response-handling body of `plan_trip` (source lines 103-120);
exceptions escaping it are caught by the surrounding `except` clauses. -/
def planTripBody (status : Nat) (data : Json) : Except Str PlanResult :=
  if status ≠ 200 then
    .ok { success := false,
          error := some (Json.str (str "OTP HTTP " ++ str (Nat.repr status))),
          itineraries := none, raw := some data }
  else
    match jsonHasError data with
    | .error e => .error e
    | .ok true =>
      match pyGet data (str "error") (Json.obj []) with
      | .error e => .error e
      | .ok ev =>
        match pyGet ev (str "message") Json.null with
        | .error e => .error e
        | .ok msgv =>
          .ok { success := false,
                error := some (pyOrJ (pyOrJ msgv (pyStr ev))
                  (Json.str (str "OTP returned error"))),
                itineraries := none, raw := some data }
    | .ok false =>
      match pyGet data (str "plan") Json.null with
      | .error e => .error e
      | .ok plan =>
        if jtruthy plan = false then
          .ok { success := false,
                error := some (Json.str (str "No plan in response (no itineraries)")),
                itineraries := none, raw := some data }
        else
          match pyGet plan (str "itineraries") (Json.arr []) with
          | .error e => .error e
          | .ok itinsV =>
            if jtruthy (pyOrJ itinsV (Json.arr [])) = false then
              .ok { success := false,
                    error := some (Json.str (str "No itineraries found")),
                    itineraries := none, raw := some data }
            else
              match asItinList (pyOrJ itinsV (Json.arr [])) with
              | .error e => .error e
              | .ok itins =>
                match itins.mapM parse_itinerary with
                | .error e => .error e
                | .ok parsed =>
                  .ok { success := true, error := none,
                        itineraries := some parsed, raw := some data }

/-- `AsyncOTPClient.plan_trip`: a transport error yields a Network-error
failure, any other exception a generic failure, and a decoded response is
handled by `planTripBody`, whose own exceptions are converted by the
final `except` clause. -/
def plan_trip : FetchOutcome → PlanResult
  | .clientError m =>
    { success := false, error := some (Json.str (str "Network error: " ++ m)),
      itineraries := none, raw := none }
  | .otherError m =>
    { success := false, error := some (Json.str (str "Unexpected error: " ++ m)),
      itineraries := none, raw := none }
  | .response st data =>
    match planTripBody st data with
    | .ok r => r
    | .error e =>
      { success := false, error := some (Json.str (str "Unexpected error: " ++ e)),
        itineraries := none, raw := none }

theorem planTripBody_cases (st : Nat) (data : Json) (r : PlanResult)
    (h : planTripBody st data = .ok r) :
    (r.success = false ∧ r.error ≠ none) ∨
    (r.success = true ∧ st = 200 ∧
      ∃ itins parsed, itins ≠ [] ∧ itins.mapM parse_itinerary = Except.ok parsed ∧
        r.itineraries = some parsed) := by
  unfold planTripBody at h
  by_cases hst : st ≠ 200
  · rw [if_pos hst] at h
    left
    rw [← Except.ok.inj h]
    exact ⟨rfl, by simp⟩
  · rw [if_neg hst] at h
    rw [Classical.not_not] at hst
    split at h
    · exact absurd h (by simp)
    · split at h
      · exact absurd h (by simp)
      next ev hev =>
      split at h
      · exact absurd h (by simp)
      next msgv hmsgv =>
      left
      rw [← Except.ok.inj h]
      exact ⟨rfl, by simp⟩
    · split at h
      · exact absurd h (by simp)
      next plan hplan =>
      split at h
      · left
        rw [← Except.ok.inj h]
        exact ⟨rfl, by simp⟩
      next hplanTruthy =>
      split at h
      · exact absurd h (by simp)
      next itinsV hitinsV =>
      split at h
      · left
        rw [← Except.ok.inj h]
        exact ⟨rfl, by simp⟩
      next hitruthy =>
      split at h
      · exact absurd h (by simp)
      next itins hitins =>
      split at h
      · exact absurd h (by simp)
      next parsed hparsed =>
      right
      rw [← Except.ok.inj h]
      refine ⟨rfl, hst, itins, parsed, ?_, hparsed, rfl⟩
      intro hnil
      subst hnil
      have hv : pyOrJ itinsV (Json.arr []) = Json.arr [] := by
        cases hpo : pyOrJ itinsV (Json.arr []) with
        | arr l =>
          rw [hpo] at hitins
          simp [asItinList] at hitins
          rw [hitins]
        | null => rw [hpo] at hitins; exact absurd hitins (by simp [asItinList])
        | bool b => rw [hpo] at hitins; exact absurd hitins (by simp [asItinList])
        | num q => rw [hpo] at hitins; exact absurd hitins (by simp [asItinList])
        | str s2 => rw [hpo] at hitins; exact absurd hitins (by simp [asItinList])
        | obj fs => rw [hpo] at hitins; exact absurd hitins (by simp [asItinList])
      rw [hv] at hitruthy
      simp [jtruthy] at hitruthy

/-- C8: plan_trip never raises — every outcome yields a result value.  A
transport failure, any other exception, a non-200 status, an explicit
error payload, a response without a (truthy) plan object and an empty
itinerary list each yield success = false with an error description; any
failure carries an error description; and success = true arises only
from a 200 response whose (well-formed) plan carried at least one
itinerary, with the parsed itinerary sequence returned. -/
theorem plan_trip_spec (o : FetchOutcome) :
    (∀ m, o = FetchOutcome.clientError m →
      (plan_trip o).success = false ∧ (plan_trip o).error ≠ none) ∧
    (∀ m, o = FetchOutcome.otherError m →
      (plan_trip o).success = false ∧ (plan_trip o).error ≠ none) ∧
    (∀ st data, o = FetchOutcome.response st data → st ≠ 200 →
      (plan_trip o).success = false ∧ (plan_trip o).error ≠ none) ∧
    (∀ data, o = FetchOutcome.response 200 data → jsonHasError data = .ok true →
      (plan_trip o).success = false ∧ (plan_trip o).error ≠ none) ∧
    (∀ data plan, o = FetchOutcome.response 200 data → jsonHasError data = .ok false →
      pyGet data (str "plan") Json.null = .ok plan → jtruthy plan = false →
      (plan_trip o).success = false ∧ (plan_trip o).error ≠ none) ∧
    (∀ data plan itinsV, o = FetchOutcome.response 200 data →
      jsonHasError data = .ok false →
      pyGet data (str "plan") Json.null = .ok plan → jtruthy plan = true →
      pyGet plan (str "itineraries") (Json.arr []) = .ok itinsV →
      jtruthy (pyOrJ itinsV (Json.arr [])) = false →
      (plan_trip o).success = false ∧ (plan_trip o).error ≠ none) ∧
    ((plan_trip o).success = false → (plan_trip o).error ≠ none) ∧
    ((plan_trip o).success = true →
      ∃ st data, o = FetchOutcome.response st data ∧ st = 200 ∧
        ∃ itins parsed, itins ≠ [] ∧ itins.mapM parse_itinerary = Except.ok parsed ∧
          (plan_trip o).itineraries = some parsed) := by
  have hgen : ((plan_trip o).success = false → (plan_trip o).error ≠ none) ∧
      ((plan_trip o).success = true →
        ∃ st data, o = FetchOutcome.response st data ∧ st = 200 ∧
          ∃ itins parsed, itins ≠ [] ∧ itins.mapM parse_itinerary = Except.ok parsed ∧
            (plan_trip o).itineraries = some parsed) := by
    cases o with
    | clientError m => exact ⟨fun _ => by simp [plan_trip], fun hs => by simp [plan_trip] at hs⟩
    | otherError m => exact ⟨fun _ => by simp [plan_trip], fun hs => by simp [plan_trip] at hs⟩
    | response st data =>
      cases hb : planTripBody st data with
      | error e =>
        constructor
        · intro _
          simp [plan_trip, hb]
        · intro hs
          simp [plan_trip, hb] at hs
      | ok r =>
        have hcases := planTripBody_cases st data r hb
        constructor
        · intro hf
          rcases hcases with ⟨_, he⟩ | ⟨hs, _⟩
          · simpa [plan_trip, hb] using he
          · rw [show plan_trip (FetchOutcome.response st data) = r by simp [plan_trip, hb]] at hf
            rw [hs] at hf
            exact absurd hf (by simp)
        · intro hs
          rw [show plan_trip (FetchOutcome.response st data) = r by simp [plan_trip, hb]] at hs ⊢
          rcases hcases with ⟨hf, _⟩ | ⟨_, h200, itins, parsed, hne, hparse, hit⟩
          · rw [hf] at hs
            exact absurd hs (by simp)
          · exact ⟨st, data, rfl, h200, itins, parsed, hne, hparse, hit⟩
  refine ⟨?_, ?_, ?_, ?_, ?_, ?_, hgen.1, hgen.2⟩
  · intro m he
    subst he
    exact ⟨by simp [plan_trip], by simp [plan_trip]⟩
  · intro m he
    subst he
    exact ⟨by simp [plan_trip], by simp [plan_trip]⟩
  · intro st data he hne
    subst he
    have hb : planTripBody st data
        = .ok ⟨false, some (Json.str (str "OTP HTTP " ++ str (Nat.repr st))),
            none, some data⟩ := by
      unfold planTripBody
      rw [if_pos hne]
    constructor
    · simp [plan_trip, hb]
    · simp [plan_trip, hb]
  · intro data he herr
    subst he
    have h200 : (200 : Nat) ≠ 200 → False := fun hc => hc rfl
    cases hev : pyGet data (str "error") (Json.obj []) with
    | error e =>
      have hb : planTripBody 200 data = .error e := by
        unfold planTripBody
        rw [if_neg (by simp)]
        simp only [herr, hev]
      constructor
      · simp [plan_trip, hb]
      · simp [plan_trip, hb]
    | ok ev =>
      cases hmv : pyGet ev (str "message") Json.null with
      | error e =>
        have hb : planTripBody 200 data = .error e := by
          unfold planTripBody
          rw [if_neg (by simp)]
          simp only [herr, hev, hmv]
        constructor
        · simp [plan_trip, hb]
        · simp [plan_trip, hb]
      | ok msgv =>
        have hb : planTripBody 200 data
            = .ok ⟨false, some (pyOrJ (pyOrJ msgv (pyStr ev))
                (Json.str (str "OTP returned error"))), none, some data⟩ := by
          unfold planTripBody
          rw [if_neg (by simp)]
          simp only [herr, hev, hmv]
        constructor
        · simp [plan_trip, hb]
        · simp [plan_trip, hb]
  · intro data plan he herr hplan hfalsy
    subst he
    have hb : planTripBody 200 data
        = .ok ⟨false, some (Json.str (str "No plan in response (no itineraries)")),
            none, some data⟩ := by
      unfold planTripBody
      rw [if_neg (by simp)]
      simp only [herr, hplan, hfalsy, if_pos]
    constructor
    · simp [plan_trip, hb]
    · simp [plan_trip, hb]
  · intro data plan itinsV he herr hplan htruthy hitv hfalsy
    subst he
    have hb : planTripBody 200 data
        = .ok ⟨false, some (Json.str (str "No itineraries found")),
            none, some data⟩ := by
      unfold planTripBody
      rw [if_neg (by simp)]
      simp only [herr, hplan, htruthy, hitv, hfalsy, if_pos]
      simp
    constructor
    · simp [plan_trip, hb]
    · simp [plan_trip, hb]

/-- C8 witness: a 500 response yields a failure carrying an error
description. -/
theorem plan_trip_spec_witness :
    (plan_trip (FetchOutcome.response 500 Json.null)).success = false ∧
    (plan_trip (FetchOutcome.response 500 Json.null)).error ≠ none :=
  ((plan_trip_spec (FetchOutcome.response 500 Json.null)).2.2.1) 500 Json.null rfl
    (by decide)

-- ### Query orchestration (src/transit_agent_final.py, process_query)

/-- One itinerary option as the orchestrator passes it to the formatter,
mirroring the `Route` dataclass (steps are leg dicts). -/
structure Route where
  duration : ℤ
  distance : ℚ
  steps : List Json
  total_walking_time : ℤ
  transit_modes : List Str

/-- The sub-steps `process_query` awaits or calls, abstracted as
functions that may raise (`Except.error` carries the Python exception
text).  Per section 7 the orchestrator must convert ANY exception from a
sub-step into a localized message, so the embedding quantifies over
sub-step behaviour; the concrete implementations are modelled and
verified separately above (extract_locations, geocode, plan_trip). -/
structure SubSteps where
  extractLocations : Str → Except Str (Option Str × Option Str)
  extractLocationsSmart : Str → Except Str (Option Str × Option Str)
  geocodeLocation : Str → Except Str (Option (ℚ × ℚ × Str))
  planRouteWithOtp : ℚ × ℚ → ℚ × ℚ → Except Str (Option (List Route))
  formatRoutesResponse : List Route → Str → Str → Str → Except Str Str
  createBasicRoute : ℚ × ℚ × Str → ℚ × ℚ × Str → Str → Except Str Str

/-- Python truthiness of an optional string (None and "" are falsy). -/
def truthyOptStr : Option Str → Bool
  | none => false
  | some s => !s.isEmpty

/-- Python `a or b` on optional strings. -/
def pyOrOptStr (a b : Option Str) : Option Str := if truthyOptStr a then a else b

/-- The localized please-specify prompt (Arabic). -/
def arPromptMsg : Str :=
  str "من فضلك حدد نقطة البداية والوجهة بوضوح. مثال: \x27عايز أروح من الفلكي لسيدي جابر\x27 أو \x27من فيكتوريا إلى المنتزه\x27"

/-- The localized please-specify prompt (English). -/
def enPromptMsg : Str :=
  str "Please specify both starting point and destination clearly. Example: \x27I want to go from Falaki to Sidi Gaber\x27 or \x27from Victoria to Montazah\x27"

/-- The localized location-not-found message (Arabic). -/
def arNotFoundMsg (loc : Str) : Str :=
  str "عذراً، لم أتمكن من العثور على موقع: **" ++ loc ++ str "**. تأكد من كتابة الاسم بطريقة صحيحة."

/-- The localized location-not-found message (English). -/
def enNotFoundMsg (loc : Str) : Str :=
  str "Sorry, I couldn\x27t find the location: **" ++ loc ++ str "**. Please check the spelling."

/-- The catch-all error message (Arabic). -/
def arErrorMsg (e : Str) : Str := str "عذراً، حدث خطأ في معالجة طلبك: " ++ e

/-- The catch-all error message (English). -/
def enErrorMsg (e : Str) : Str :=
  str "Sorry, an error occurred while processing your request: " ++ e

/-- The try-block of `process_query` (source lines 371-412): detect the
language, extract locations (falling back to the language-model
extractor), prompt when either endpoint is missing, geocode both
endpoints with localized not-found messages, then format planned routes
or fall back to the basic-options message. -/
def processQueryBody (ss : SubSteps) (user_query : Str) : Except Str Str := do
  let language := detect_language user_query
  let (f0, t0) ← ss.extractLocations user_query
  let (from_location, to_location) ←
    if !truthyOptStr f0 || !truthyOptStr t0 then do
      let (sf, st2) ← ss.extractLocationsSmart user_query
      pure (pyOrOptStr f0 sf, pyOrOptStr t0 st2)
    else pure (f0, t0)
  if !truthyOptStr from_location || !truthyOptStr to_location then
    pure (if language = str "ar" then arPromptMsg else enPromptMsg)
  else do
    let from_coords ← ss.geocodeLocation (from_location.getD [])
    match from_coords with
    | none =>
      pure (if language = str "ar" then arNotFoundMsg (from_location.getD [])
            else enNotFoundMsg (from_location.getD []))
    | some fc => do
      let to_coords ← ss.geocodeLocation (to_location.getD [])
      match to_coords with
      | none =>
        pure (if language = str "ar" then arNotFoundMsg (to_location.getD [])
              else enNotFoundMsg (to_location.getD []))
      | some tc => do
        let routes ← ss.planRouteWithOtp (fc.1, fc.2.1) (tc.1, tc.2.1)
        match routes with
        | some (r :: rs) => ss.formatRoutesResponse (r :: rs) fc.2.2 tc.2.2 language
        | _ => ss.createBasicRoute fc tc language

/-- `FinalTransitAgent.process_query`: the body wrapped in the catch-all
exception handler, which re-detects the language of the original query
and localizes the error message. -/
def process_query (ss : SubSteps) (user_query : Str) : Str :=
  match processQueryBody ss user_query with
  | .ok msg => msg
  | .error e =>
    if detect_language user_query = str "ar" then arErrorMsg e
    else enErrorMsg e

/-- C7: query processing never propagates an exception — the result is
always an ordinary text message; whenever any sub-step raises, the
message is the catch-all error text localized per the detected language
of the original input query, and a non-raising run's message is returned
unchanged. -/
theorem process_query_total_and_localized (ss : SubSteps) (q : Str) :
    (∀ e, processQueryBody ss q = .error e →
        process_query ss q
          = (if detect_language q = str "ar" then arErrorMsg e else enErrorMsg e)) ∧
    (∀ m, processQueryBody ss q = .ok m → process_query ss q = m) := by
  constructor
  · intro e he
    unfold process_query
    rw [he]
  · intro m hm
    unfold process_query
    rw [hm]

/-- Sub-steps whose extraction step raises, used to instantiate C7. -/
def throwingSubSteps : SubSteps where
  extractLocations := fun _ => .error (str "boom")
  extractLocationsSmart := fun _ => .ok (none, none)
  geocodeLocation := fun _ => .ok none
  planRouteWithOtp := fun _ _ => .ok none
  formatRoutesResponse := fun _ _ _ _ => .ok []
  createBasicRoute := fun _ _ _ => .ok []

/-- C7 witness: with a raising extraction step and the English query
"hi", process_query returns the English catch-all error message. -/
theorem process_query_total_and_localized_witness :
    processQueryBody throwingSubSteps (str "hi") = .error (str "boom") ∧
    process_query throwingSubSteps (str "hi") = enErrorMsg (str "boom") := by
  have h : processQueryBody throwingSubSteps (str "hi") = .error (str "boom") := by
    with_unfolding_all rfl
  refine ⟨h, ?_⟩
  have hloc := (process_query_total_and_localized throwingSubSteps (str "hi")).1
    (str "boom") h
  rw [hloc, if_neg (by with_unfolding_all decide)]
